import Mathlib

/-
Verification of the session-orchestration core of pyvisca-gui
(src/pyvisca_gui/main.py, class ViscaGUI) via a shallow embedding.

Modelling conventions:
* Each Python method on `ViscaGUI` becomes a Lean function on `GuiState`
  (the instance attributes), returning the updated state plus, where the
  method talks to the camera library, the list of device calls it issued.
* Exceptions raised by the external camera library are modelled as oracle
  arguments (`Except String _` / `Bool` outcomes); the method bodies then
  transcribe the `try`/`except` structure of the source as case analysis.
* `time.time()` floats are modelled as exact rationals (only order
  comparisons matter to the code); `movement_timeout = 0.15`.
* The `"[HH:MM:SS] "` timestamp prefix that `add_log` puts in front of a
  message is pure presentation and is elided: log entries are the messages.
* I/O-only attributes (Dear PyGui widget ids, the config file, the
  background thread object) are outside the model.
-/

namespace ViscaGUI

/-- Direction tags stored in `current_movement` (the source uses the
strings "up"/"down"/"left"/"right"). -/
inductive MoveDir
  | up
  | down
  | left
  | right
deriving DecidableEq, Repr

/-- Tags stored in `current_zoom` ("in"/"out" in the source). -/
inductive ZoomDir
  | zin
  | zout
deriving DecidableEq, Repr

/-- Tags stored in `current_focus` ("near"/"far" in the source). -/
inductive FocusDir
  | near
  | far
deriving DecidableEq, Repr

/-- The transport object `camera._output`: what its `isOpen()` probe
reports, and whether probing it raises. -/
structure Output where
  isOpenVal : Bool
  probeRaises : Bool
deriving DecidableEq, Repr

/-- The external `PTZ` client object held in `self.camera`; `output`
models its `_output` attribute (`none` = the attribute is `None`). -/
structure Camera where
  output : Option Output
deriving DecidableEq, Repr

/-- One call issued to the external camera library. -/
inductive DevCall
  | up (v : Int)
  | down (v : Int)
  | left (v : Int)
  | right (v : Int)
  | stop
  | zoomIn (v : Int)
  | zoomOut (v : Int)
  | zoomStop
  | focusNear (v : Int)
  | focusFar (v : Int)
  | focusStop
  | home
  | powerGet
  | powerSet (v : Int)
  | reset
  | resetInputBuffer
  | autofocus
  | wbAuto
  | wbIndoor
  | wbOutdoor
  | wbModeGet
  | presetRecall (n : Nat)
deriving DecidableEq, Repr

/-- The instance attributes of `ViscaGUI` that the orchestration logic
reads or writes (`__init__`, lines 30-57 of the source). -/
structure GuiState where
  connection_string : String
  camera : Option Camera
  pan_speed : Int
  tilt_speed : Int
  zoom_speed : Int
  focus_speed : Int
  running : Bool
  status_message : String
  current_movement : Option MoveDir
  last_movement_time : ℚ
  movement_timeout : ℚ
  current_zoom : Option ZoomDir
  current_focus : Option FocusDir
  incoming_messages : List String
  max_messages : Nat
  log_messages : List String
deriving Repr

/-- `add_log` (lines 171-176): append the message, then keep only the
last 100 entries when the log exceeds 100. -/
def add_log (log : List String) (message : String) : List String :=
  let l2 := log ++ [message]
  if l2.length > 100 then l2.drop (l2.length - 100) else l2

/-- The body of `is_connected` (lines 78-86) evaluated on the camera
handle: `None` handle, absent `_output`, or a raising `isOpen()` probe
all yield `false`; otherwise the probe's report is returned. Factored
out of `is_connected` so that its dependence on the camera handle alone
is syntactic. -/
def live_probe : Option Camera → Bool
  | none => false
  | some c =>
    match c.output with
    | none => false
    | some o => if o.probeRaises then false else o.isOpenVal

/-- `is_connected` (lines 78-86). The method performs no assignment, so
the state component of the result is the input state. -/
def is_connected (s : GuiState) : GuiState × Bool :=
  (s, live_probe s.camera)

/-- Outcome of one `PTZ(connection_string)` construction attempt. -/
inductive ConnectRes
  | success
  | failure (msg : String)

/-- A freshly constructed `PTZ` client: its transport is open (the
constructor opens the connection or raises). -/
def liveCamera : Camera :=
  { output := some { isOpenVal := true, probeRaises := false } }

/-- `connect_camera` (lines 64-76): one construction attempt; on success
the handle is replaced and a log entry added, on failure the prior
handle is left untouched. (`save_config` is external persistence and is
not modelled.) -/
def connect_camera (cr : ConnectRes) (s : GuiState) : GuiState × Bool :=
  match cr with
  | ConnectRes.success =>
    ({ s with
        camera := some liveCamera,
        status_message := "Connected to " ++ s.connection_string,
        log_messages :=
          add_log s.log_messages ("Connected to " ++ s.connection_string) },
     true)
  | ConnectRes.failure e =>
    ({ s with
        status_message := "Connection failed: " ++ e,
        log_messages :=
          add_log s.log_messages ("Connection failed: " ++ e) },
     false)

/-- `ensure_connected` (lines 88-97). The `Nat` component counts the
`PTZ` construction attempts the call performed. -/
def ensure_connected (cr : ConnectRes) (s : GuiState) :
    GuiState × Bool × Nat :=
  if (is_connected s).2 = true then (s, true, 0)
  else
    let s1 := { s with status_message := "Reconnecting..." }
    let r := connect_camera cr s1
    if r.2 = true then
      ({ r.1 with
          status_message := "Reconnected to " ++ r.1.connection_string },
       true, 1)
    else (r.1, false, 1)

/-- `ensure_connected` called once per element of `crs`, threading the
state; the `Nat` component is the total number of construction
attempts. -/
def ensureN : List ConnectRes → GuiState → GuiState × Nat
  | [], s => (s, 0)
  | cr :: rest, s =>
    let r1 := ensure_connected cr s
    let r2 := ensureN rest r1.1
    (r2.1, r1.2.2 + r2.2)

/-- Outcome of one individual status-field query inside
`get_camera_status`: it returned a value, it raised one of the exception
types the per-field `except` clauses catch (`IndexError`, `ValueError`,
`AttributeError`), or it raised some other exception (which only the
outer catch-all handles). -/
inductive FieldRes (α : Type)
  | ok (v : α)
  | errCaught
  | errOther (msg : String)

/-- The value a field query contributes: its result when it succeeded,
the pre-initialised default otherwise. -/
def fieldValue {α : Type} (default : α) : FieldRes α → α
  | FieldRes.ok v => v
  | FieldRes.errCaught => default
  | FieldRes.errOther _ => default

/-- Whether a field query raised an exception type that the per-field
`except` clause does not catch. -/
def isOther {α : Type} : FieldRes α → Bool
  | FieldRes.errOther _ => true
  | _ => false

/-- The message of the uncaught exception a field query raised (only
consulted when `isOther` holds). -/
def otherMsg {α : Type} : FieldRes α → String
  | FieldRes.errOther m => m
  | _ => ""

/-- The append-then-truncate update `check_incoming_messages` performs
on `incoming_messages` (lines 189-193): append the raw message, then
keep only the last `maxMsgs` entries when the queue exceeds it. -/
def push_incoming (q : List String) (maxMsgs : Nat) (raw : String) :
    List String :=
  let q2 := q ++ [raw]
  if q2.length > maxMsgs then q2.drop (q2.length - maxMsgs) else q2

/-- Outcomes of the device queries one `get_camera_status` call makes.
`power` has no per-field handler, so only success/raise matters. -/
structure StatusQueries where
  power : Except String Int
  pan : FieldRes Int
  tilt : FieldRes Int
  zoom : FieldRes Int
  video_format : FieldRes String
  ae_mode : FieldRes String
  white_balance : FieldRes String

/-- The dict `get_camera_status` returns: either the `connected: False`
shape with an error string, or the full snapshot. -/
inductive CamStatus
  | notConnected (error : String)
  | snapshot (power : String) (pan tilt zoom : Int)
      (video_format ae_mode white_balance : String)
      (pan_speed tilt_speed zoom_speed focus_speed : Int)
deriving DecidableEq, Repr

/-- The `connected` entry of the returned dict. -/
def CamStatus.isConn : CamStatus → Bool
  | CamStatus.notConnected _ => false
  | CamStatus.snapshot _ _ _ _ _ _ _ _ _ _ _ => true

/-- The error-string truncation of the outer `except` clause of
`get_camera_status` (lines 165-169). -/
def truncateErr (e : String) : String :=
  if e.length > 100 then e.take 97 ++ "..." else e

/-- `get_camera_status` (lines 99-169). The six per-field queries run in
source order inside the outer `try`; an uncaught exception from any of
them (or from the unguarded `get_power` call) aborts the whole poll via
the outer handler. -/
def get_camera_status (q : StatusQueries) (s : GuiState) : CamStatus :=
  match s.camera with
  | none => CamStatus.notConnected "No camera connection"
  | some _ =>
    if (is_connected s).2 = false then
      CamStatus.notConnected "Connection lost - will reconnect on next action"
    else
      let body : Except String CamStatus := do
        let p ← q.power
        let power_str : String :=
          if p = 1 then "ON" else if p = 0 then "OFF" else "UNKNOWN"
        let pan ← if isOther q.pan then Except.error (otherMsg q.pan)
                  else Except.ok (fieldValue 0 q.pan)
        let tilt ← if isOther q.tilt then Except.error (otherMsg q.tilt)
                   else Except.ok (fieldValue 0 q.tilt)
        let zoom ← if isOther q.zoom then Except.error (otherMsg q.zoom)
                   else Except.ok (fieldValue 0 q.zoom)
        let vf ← if isOther q.video_format then
                   Except.error (otherMsg q.video_format)
                 else Except.ok (fieldValue "Unknown" q.video_format)
        let ae ← if isOther q.ae_mode then Except.error (otherMsg q.ae_mode)
                 else Except.ok (fieldValue "Unknown" q.ae_mode)
        let wb ← if isOther q.white_balance then
                   Except.error (otherMsg q.white_balance)
                 else Except.ok (fieldValue "Unknown" q.white_balance)
        pure (CamStatus.snapshot power_str pan tilt zoom vf ae wb
          s.pan_speed s.tilt_speed s.zoom_speed s.focus_speed)
      match body with
      | Except.ok st => st
      | Except.error e => CamStatus.notConnected (truncateErr e)

/-- `check_incoming_messages` (lines 178-198); `read` is the outcome of
`camera.read()`. -/
def check_incoming_messages (read : Except String String) (s : GuiState) :
    GuiState × Bool :=
  match s.camera with
  | none => (s, false)
  | some _ =>
    if (is_connected s).2 = false then (s, false)
    else
      match read with
      | Except.error _ => (s, false)
      | Except.ok raw =>
        if raw.length > 0 then
          ({ s with
              incoming_messages :=
                push_incoming s.incoming_messages s.max_messages raw,
              log_messages := add_log s.log_messages ("Msg: " ++ raw) },
           true)
        else (s, false)

/-- Whether each device stop call the watchdog may make succeeds
(`False` = the call raises; the `except` clauses swallow it). -/
structure TickDev where
  stopOk : Bool
  zoomStopOk : Bool
  focusStopOk : Bool
deriving Repr

/-- First block of `check_movement_timeout` (lines 204-214): the
pan/tilt axis. When the camera handle is `None`, `self.camera.stop()`
raises before any device call is made; in either failure case the
`except` clause leaves all attributes untouched. -/
def cmt_move (now : ℚ) (dev : TickDev) (s : GuiState) :
    GuiState × List DevCall :=
  match s.current_movement with
  | none => (s, [])
  | some _ =>
    if now - s.last_movement_time > s.movement_timeout then
      match s.camera with
      | none => (s, [])
      | some _ =>
        if dev.stopOk then
          ({ s with
              current_movement := none,
              status_message := "Movement stopped",
              log_messages :=
                add_log s.log_messages "Movement stopped (timeout)" },
           [DevCall.stop])
        else (s, [DevCall.stop])
    else (s, [])

/-- Second block of `check_movement_timeout` (lines 216-224): the zoom
axis. -/
def cmt_zoom (now : ℚ) (dev : TickDev) (s : GuiState) :
    GuiState × List DevCall :=
  match s.current_zoom with
  | none => (s, [])
  | some _ =>
    if now - s.last_movement_time > s.movement_timeout then
      match s.camera with
      | none => (s, [])
      | some _ =>
        if dev.zoomStopOk then
          ({ s with current_zoom := none }, [DevCall.zoomStop])
        else (s, [DevCall.zoomStop])
    else (s, [])

/-- Third block of `check_movement_timeout` (lines 226-234): the focus
axis. -/
def cmt_focus (now : ℚ) (dev : TickDev) (s : GuiState) :
    GuiState × List DevCall :=
  match s.current_focus with
  | none => (s, [])
  | some _ =>
    if now - s.last_movement_time > s.movement_timeout then
      match s.camera with
      | none => (s, [])
      | some _ =>
        if dev.focusStopOk then
          ({ s with current_focus := none }, [DevCall.focusStop])
        else (s, [DevCall.focusStop])
    else (s, [])

/-- `check_movement_timeout` (lines 200-234): one watchdog tick at time
`now`, running the three per-axis blocks in source order. -/
def check_movement_timeout (now : ℚ) (dev : TickDev) (s : GuiState) :
    GuiState × List DevCall :=
  let r1 := cmt_move now dev s
  let r2 := cmt_zoom now dev r1.1
  let r3 := cmt_focus now dev r2.1
  (r3.1, r1.2 ++ (r2.2 ++ r3.2))

/-- A run of consecutive watchdog ticks with no intervening commands. -/
def runTicks : List (ℚ × TickDev) → GuiState → GuiState × List DevCall
  | [], s => (s, [])
  | (t, dv) :: rest, s =>
    let r1 := check_movement_timeout t dv s
    let r2 := runTicks rest r1.1
    (r2.1, r1.2 ++ r2.2)

/-- The shared `except` arm of the command methods: publish the error as
status message and log entry, leaving everything else untouched. -/
def errUpdate (s : GuiState) (e : String) : GuiState :=
  { s with
      status_message := "Error: " ++ e,
      log_messages := add_log s.log_messages ("Error: " ++ e) }

/-- `move_up` (lines 238-250): connection gate, then one `camera.up`
call; on success the axis state and timestamp are refreshed. `dev` is
the outcome of the device call. -/
def move_up (cr : ConnectRes) (dev : Except String Unit) (now : ℚ)
    (s : GuiState) : GuiState × List DevCall :=
  let g := ensure_connected cr s
  if g.2.1 then
    match dev with
    | Except.ok _ =>
      ({ g.1 with
          current_movement := some MoveDir.up,
          last_movement_time := now,
          status_message := "Moving UP",
          log_messages := add_log g.1.log_messages "Moving UP" },
       [DevCall.up g.1.tilt_speed])
    | Except.error e => (errUpdate g.1 e, [DevCall.up g.1.tilt_speed])
  else (g.1, [])

/-- `move_down` (lines 252-264). -/
def move_down (cr : ConnectRes) (dev : Except String Unit) (now : ℚ)
    (s : GuiState) : GuiState × List DevCall :=
  let g := ensure_connected cr s
  if g.2.1 then
    match dev with
    | Except.ok _ =>
      ({ g.1 with
          current_movement := some MoveDir.down,
          last_movement_time := now,
          status_message := "Moving DOWN",
          log_messages := add_log g.1.log_messages "Moving DOWN" },
       [DevCall.down g.1.tilt_speed])
    | Except.error e => (errUpdate g.1 e, [DevCall.down g.1.tilt_speed])
  else (g.1, [])

/-- `move_left` (lines 266-278). -/
def move_left (cr : ConnectRes) (dev : Except String Unit) (now : ℚ)
    (s : GuiState) : GuiState × List DevCall :=
  let g := ensure_connected cr s
  if g.2.1 then
    match dev with
    | Except.ok _ =>
      ({ g.1 with
          current_movement := some MoveDir.left,
          last_movement_time := now,
          status_message := "Moving LEFT",
          log_messages := add_log g.1.log_messages "Moving LEFT" },
       [DevCall.left g.1.pan_speed])
    | Except.error e => (errUpdate g.1 e, [DevCall.left g.1.pan_speed])
  else (g.1, [])

/-- `move_right` (lines 280-292). -/
def move_right (cr : ConnectRes) (dev : Except String Unit) (now : ℚ)
    (s : GuiState) : GuiState × List DevCall :=
  let g := ensure_connected cr s
  if g.2.1 then
    match dev with
    | Except.ok _ =>
      ({ g.1 with
          current_movement := some MoveDir.right,
          last_movement_time := now,
          status_message := "Moving RIGHT",
          log_messages := add_log g.1.log_messages "Moving RIGHT" },
       [DevCall.right g.1.pan_speed])
    | Except.error e => (errUpdate g.1 e, [DevCall.right g.1.pan_speed])
  else (g.1, [])

/-- `stop` (lines 294-308): on success all three axis states become
`None` and the incoming-message queue is cleared. -/
def stop (cr : ConnectRes) (dev : Except String Unit) (s : GuiState) :
    GuiState × List DevCall :=
  let g := ensure_connected cr s
  if g.2.1 then
    match dev with
    | Except.ok _ =>
      ({ g.1 with
          current_movement := none,
          current_zoom := none,
          current_focus := none,
          incoming_messages := [],
          status_message := "Stopped (cleared messages)",
          log_messages :=
            add_log g.1.log_messages "Stopped (cleared messages)" },
       [DevCall.stop])
    | Except.error e => (errUpdate g.1 e, [DevCall.stop])
  else (g.1, [])

/-- `zoom_in` (lines 312-324). -/
def zoom_in (cr : ConnectRes) (dev : Except String Unit) (now : ℚ)
    (s : GuiState) : GuiState × List DevCall :=
  let g := ensure_connected cr s
  if g.2.1 then
    match dev with
    | Except.ok _ =>
      ({ g.1 with
          current_zoom := some ZoomDir.zin,
          last_movement_time := now,
          status_message := "Zooming IN",
          log_messages := add_log g.1.log_messages "Zooming IN" },
       [DevCall.zoomIn g.1.zoom_speed])
    | Except.error e => (errUpdate g.1 e, [DevCall.zoomIn g.1.zoom_speed])
  else (g.1, [])

/-- `zoom_out` (lines 326-338). -/
def zoom_out (cr : ConnectRes) (dev : Except String Unit) (now : ℚ)
    (s : GuiState) : GuiState × List DevCall :=
  let g := ensure_connected cr s
  if g.2.1 then
    match dev with
    | Except.ok _ =>
      ({ g.1 with
          current_zoom := some ZoomDir.zout,
          last_movement_time := now,
          status_message := "Zooming OUT",
          log_messages := add_log g.1.log_messages "Zooming OUT" },
       [DevCall.zoomOut g.1.zoom_speed])
    | Except.error e => (errUpdate g.1 e, [DevCall.zoomOut g.1.zoom_speed])
  else (g.1, [])

/-- `zoom_stop` (lines 340-351): explicit stop, no timestamp refresh. -/
def zoom_stop (cr : ConnectRes) (dev : Except String Unit) (s : GuiState) :
    GuiState × List DevCall :=
  let g := ensure_connected cr s
  if g.2.1 then
    match dev with
    | Except.ok _ =>
      ({ g.1 with
          current_zoom := none,
          status_message := "Zoom STOP",
          log_messages := add_log g.1.log_messages "Zoom STOP" },
       [DevCall.zoomStop])
    | Except.error e => (errUpdate g.1 e, [DevCall.zoomStop])
  else (g.1, [])

/-- `focus_near` (lines 355-367). -/
def focus_near (cr : ConnectRes) (dev : Except String Unit) (now : ℚ)
    (s : GuiState) : GuiState × List DevCall :=
  let g := ensure_connected cr s
  if g.2.1 then
    match dev with
    | Except.ok _ =>
      ({ g.1 with
          current_focus := some FocusDir.near,
          last_movement_time := now,
          status_message := "Focus NEAR",
          log_messages := add_log g.1.log_messages "Focus NEAR" },
       [DevCall.focusNear g.1.focus_speed])
    | Except.error e =>
      (errUpdate g.1 e, [DevCall.focusNear g.1.focus_speed])
  else (g.1, [])

/-- `focus_far` (lines 369-381). -/
def focus_far (cr : ConnectRes) (dev : Except String Unit) (now : ℚ)
    (s : GuiState) : GuiState × List DevCall :=
  let g := ensure_connected cr s
  if g.2.1 then
    match dev with
    | Except.ok _ =>
      ({ g.1 with
          current_focus := some FocusDir.far,
          last_movement_time := now,
          status_message := "Focus FAR",
          log_messages := add_log g.1.log_messages "Focus FAR" },
       [DevCall.focusFar g.1.focus_speed])
    | Except.error e =>
      (errUpdate g.1 e, [DevCall.focusFar g.1.focus_speed])
  else (g.1, [])

/-- `focus_stop` (lines 383-394). -/
def focus_stop (cr : ConnectRes) (dev : Except String Unit) (s : GuiState) :
    GuiState × List DevCall :=
  let g := ensure_connected cr s
  if g.2.1 then
    match dev with
    | Except.ok _ =>
      ({ g.1 with
          current_focus := none,
          status_message := "Focus STOP",
          log_messages := add_log g.1.log_messages "Focus STOP" },
       [DevCall.focusStop])
    | Except.error e => (errUpdate g.1 e, [DevCall.focusStop])
  else (g.1, [])

/-- `home` (lines 398-408). -/
def home (cr : ConnectRes) (dev : Except String Unit) (s : GuiState) :
    GuiState × List DevCall :=
  let g := ensure_connected cr s
  if g.2.1 then
    match dev with
    | Except.ok _ =>
      ({ g.1 with
          status_message := "Going HOME",
          log_messages := add_log g.1.log_messages "Going HOME" },
       [DevCall.home])
    | Except.error e => (errUpdate g.1 e, [DevCall.home])
  else (g.1, [])

/-- `toggle_power` (lines 410-426): read the power state, then set the
opposite; a reading other than 0 or 1 falls through silently (the
`if`/`elif` has no `else`). -/
def toggle_power (cr : ConnectRes) (pr : Except String Int)
    (dev : Except String Unit) (s : GuiState) : GuiState × List DevCall :=
  let g := ensure_connected cr s
  if g.2.1 then
    match pr with
    | Except.error e => (errUpdate g.1 e, [DevCall.powerGet])
    | Except.ok v =>
      if v = 1 then
        match dev with
        | Except.ok _ =>
          ({ g.1 with
              status_message := "Power OFF",
              log_messages := add_log g.1.log_messages "Power OFF" },
           [DevCall.powerGet, DevCall.powerSet 0])
        | Except.error e =>
          (errUpdate g.1 e, [DevCall.powerGet, DevCall.powerSet 0])
      else if v = 0 then
        match dev with
        | Except.ok _ =>
          ({ g.1 with
              status_message := "Power ON",
              log_messages := add_log g.1.log_messages "Power ON" },
           [DevCall.powerGet, DevCall.powerSet 1])
        | Except.error e =>
          (errUpdate g.1 e, [DevCall.powerGet, DevCall.powerSet 1])
      else (g.1, [DevCall.powerGet])
  else (g.1, [])

/-- `reset` (lines 428-438). -/
def reset (cr : ConnectRes) (dev : Except String Unit) (s : GuiState) :
    GuiState × List DevCall :=
  let g := ensure_connected cr s
  if g.2.1 then
    match dev with
    | Except.ok _ =>
      ({ g.1 with
          status_message := "Camera RESET",
          log_messages := add_log g.1.log_messages "Camera RESET" },
       [DevCall.reset])
    | Except.error e => (errUpdate g.1 e, [DevCall.reset])
  else (g.1, [])

/-- `clear` (lines 440-451): reset the input buffer, then clear the
incoming-message queue. -/
def clear (cr : ConnectRes) (dev : Except String Unit) (s : GuiState) :
    GuiState × List DevCall :=
  let g := ensure_connected cr s
  if g.2.1 then
    match dev with
    | Except.ok _ =>
      ({ g.1 with
          incoming_messages := [],
          status_message := "Buffer & messages CLEARED",
          log_messages :=
            add_log g.1.log_messages "Buffer & messages CLEARED" },
       [DevCall.resetInputBuffer])
    | Except.error e => (errUpdate g.1 e, [DevCall.resetInputBuffer])
  else (g.1, [])

/-- `autofocus` (lines 453-463). -/
def autofocus (cr : ConnectRes) (dev : Except String Unit) (s : GuiState) :
    GuiState × List DevCall :=
  let g := ensure_connected cr s
  if g.2.1 then
    match dev with
    | Except.ok _ =>
      ({ g.1 with
          status_message := "Autofocus enabled",
          log_messages := add_log g.1.log_messages "Autofocus enabled" },
       [DevCall.autofocus])
    | Except.error e => (errUpdate g.1 e, [DevCall.autofocus])
  else (g.1, [])

/-- `white_balance_auto` (lines 467-477). -/
def white_balance_auto (cr : ConnectRes) (dev : Except String Unit)
    (s : GuiState) : GuiState × List DevCall :=
  let g := ensure_connected cr s
  if g.2.1 then
    match dev with
    | Except.ok _ =>
      ({ g.1 with
          status_message := "White balance: Auto",
          log_messages := add_log g.1.log_messages "White balance: Auto" },
       [DevCall.wbAuto])
    | Except.error e => (errUpdate g.1 e, [DevCall.wbAuto])
  else (g.1, [])

/-- `white_balance_indoor` (lines 479-489). -/
def white_balance_indoor (cr : ConnectRes) (dev : Except String Unit)
    (s : GuiState) : GuiState × List DevCall :=
  let g := ensure_connected cr s
  if g.2.1 then
    match dev with
    | Except.ok _ =>
      ({ g.1 with
          status_message := "White balance: Indoor",
          log_messages :=
            add_log g.1.log_messages "White balance: Indoor" },
       [DevCall.wbIndoor])
    | Except.error e => (errUpdate g.1 e, [DevCall.wbIndoor])
  else (g.1, [])

/-- `white_balance_outdoor` (lines 491-501). -/
def white_balance_outdoor (cr : ConnectRes) (dev : Except String Unit)
    (s : GuiState) : GuiState × List DevCall :=
  let g := ensure_connected cr s
  if g.2.1 then
    match dev with
    | Except.ok _ =>
      ({ g.1 with
          status_message := "White balance: Outdoor",
          log_messages :=
            add_log g.1.log_messages "White balance: Outdoor" },
       [DevCall.wbOutdoor])
    | Except.error e => (errUpdate g.1 e, [DevCall.wbOutdoor])
  else (g.1, [])

/-- The callback produced by `recall_preset` (lines 505-519). -/
def recall_preset (preset : Nat) (cr : ConnectRes)
    (dev : Except String Unit) (s : GuiState) : GuiState × List DevCall :=
  let g := ensure_connected cr s
  if g.2.1 then
    match dev with
    | Except.ok _ =>
      ({ g.1 with
          status_message := "Recalling preset " ++ toString preset,
          log_messages :=
            add_log g.1.log_messages
              ("Recalling preset " ++ toString preset) },
       [DevCall.presetRecall preset])
    | Except.error e => (errUpdate g.1 e, [DevCall.presetRecall preset])
  else (g.1, [])

/-- `increase_pan_speed` (lines 591-595): purely local numeric state,
no connection gate and no device call. -/
def increase_pan_speed (s : GuiState) : GuiState :=
  let v := min 24 (s.pan_speed + 1)
  { s with
      pan_speed := v,
      status_message := "Pan speed: " ++ toString v,
      log_messages := add_log s.log_messages ("Pan speed: " ++ toString v) }

/-- `decrease_pan_speed` (lines 597-601). -/
def decrease_pan_speed (s : GuiState) : GuiState :=
  let v := max 0 (s.pan_speed - 1)
  { s with
      pan_speed := v,
      status_message := "Pan speed: " ++ toString v,
      log_messages := add_log s.log_messages ("Pan speed: " ++ toString v) }

/-- `increase_tilt_speed` (lines 603-607). -/
def increase_tilt_speed (s : GuiState) : GuiState :=
  let v := min 24 (s.tilt_speed + 1)
  { s with
      tilt_speed := v,
      status_message := "Tilt speed: " ++ toString v,
      log_messages :=
        add_log s.log_messages ("Tilt speed: " ++ toString v) }

/-- `decrease_tilt_speed` (lines 609-613). -/
def decrease_tilt_speed (s : GuiState) : GuiState :=
  let v := max 0 (s.tilt_speed - 1)
  { s with
      tilt_speed := v,
      status_message := "Tilt speed: " ++ toString v,
      log_messages :=
        add_log s.log_messages ("Tilt speed: " ++ toString v) }

/-- `increase_zoom_speed` (lines 615-619): capped at 7. -/
def increase_zoom_speed (s : GuiState) : GuiState :=
  let v := min 7 (s.zoom_speed + 1)
  { s with
      zoom_speed := v,
      status_message := "Zoom speed: " ++ toString v,
      log_messages :=
        add_log s.log_messages ("Zoom speed: " ++ toString v) }

/-- `decrease_zoom_speed` (lines 621-625). -/
def decrease_zoom_speed (s : GuiState) : GuiState :=
  let v := max 0 (s.zoom_speed - 1)
  { s with
      zoom_speed := v,
      status_message := "Zoom speed: " ++ toString v,
      log_messages :=
        add_log s.log_messages ("Zoom speed: " ++ toString v) }

/-- `increase_focus_speed` (lines 627-631): capped at 7. -/
def increase_focus_speed (s : GuiState) : GuiState :=
  let v := min 7 (s.focus_speed + 1)
  { s with
      focus_speed := v,
      status_message := "Focus speed: " ++ toString v,
      log_messages :=
        add_log s.log_messages ("Focus speed: " ++ toString v) }

/-- `decrease_focus_speed` (lines 633-637). -/
def decrease_focus_speed (s : GuiState) : GuiState :=
  let v := max 0 (s.focus_speed - 1)
  { s with
      focus_speed := v,
      status_message := "Focus speed: " ++ toString v,
      log_messages :=
        add_log s.log_messages ("Focus speed: " ++ toString v) }

/-- The keys the `key_handler` closure (lines 868-961) distinguishes.
`plus` stands for both `+` and `=`, `minus` for both `-` and `_`
(the source tests them with `or`); `other` is any unbound key. -/
inductive Key
  | up
  | down
  | left
  | right
  | space
  | comma
  | period
  | lt
  | gt
  | a
  | d
  | s
  | f
  | plus
  | minus
  | z
  | lbracket
  | rbracket
  | x
  | h
  | p
  | r
  | c
  | b
  | digit (n : Nat)
  | escape
  | other
deriving DecidableEq, Repr

/-- Device-side outcomes consumed while handling one key event. -/
structure KeyOracle where
  cr : ConnectRes
  dev : Except String Unit
  now : ℚ
  powerRes : Except String Int
  wbModeRes : Except String Int

/-- `key_handler` (lines 868-961): the whole body is gated by
`ensure_connected` before any key is dispatched. The `f` key hits the
focus-speed arm (line 909); the later autofocus arm for `f` (line 937)
is unreachable in the `elif` chain. In the `b` arm the
`get_white_balance_mode()` call is not individually guarded, so its
exception reaches the handler's own catch-all. -/
def key_handler (o : KeyOracle) (k : Key) (s : GuiState) :
    GuiState × List DevCall :=
  let g := ensure_connected o.cr s
  if g.2.1 then
    match k with
    | Key.up => move_up o.cr o.dev o.now g.1
    | Key.down => move_down o.cr o.dev o.now g.1
    | Key.left => move_left o.cr o.dev o.now g.1
    | Key.right => move_right o.cr o.dev o.now g.1
    | Key.space => stop o.cr o.dev g.1
    | Key.comma => (decrease_pan_speed g.1, [])
    | Key.period => (increase_pan_speed g.1, [])
    | Key.lt => (decrease_tilt_speed g.1, [])
    | Key.gt => (increase_tilt_speed g.1, [])
    | Key.a => (decrease_zoom_speed g.1, [])
    | Key.d => (increase_zoom_speed g.1, [])
    | Key.s => (decrease_focus_speed g.1, [])
    | Key.f => (increase_focus_speed g.1, [])
    | Key.plus => zoom_in o.cr o.dev o.now g.1
    | Key.minus => zoom_out o.cr o.dev o.now g.1
    | Key.z => zoom_stop o.cr o.dev g.1
    | Key.lbracket => focus_near o.cr o.dev o.now g.1
    | Key.rbracket => focus_far o.cr o.dev o.now g.1
    | Key.x => focus_stop o.cr o.dev g.1
    | Key.h => home o.cr o.dev g.1
    | Key.p => toggle_power o.cr o.powerRes o.dev g.1
    | Key.r => reset o.cr o.dev g.1
    | Key.c => clear o.cr o.dev g.1
    | Key.b =>
      match o.wbModeRes with
      | Except.error e => (errUpdate g.1 e, [DevCall.wbModeGet])
      | Except.ok m =>
        if m = 0 then
          let r := white_balance_indoor o.cr o.dev g.1
          (r.1, DevCall.wbModeGet :: r.2)
        else if m = 1 then
          let r := white_balance_outdoor o.cr o.dev g.1
          (r.1, DevCall.wbModeGet :: r.2)
        else
          let r := white_balance_auto o.cr o.dev g.1
          (r.1, DevCall.wbModeGet :: r.2)
    | Key.digit n => recall_preset n o.cr o.dev g.1
    | Key.escape => ({ g.1 with running := false }, [])
    | Key.other => (g.1, [])
  else (g.1, [])

/-- Events of a watchdog trace: a successful motion-start command on one
of the three axes (which refreshes the shared timestamp), or a watchdog
tick. -/
inductive WEvent
  | startMove (d : MoveDir) (t : ℚ)
  | startZoom (d : ZoomDir) (t : ℚ)
  | startFocus (d : FocusDir) (t : ℚ)
  | tick (t : ℚ) (dev : TickDev)

/-- One trace event, applied through the embedded command methods (the
start events use the success outcome: the claim is about starts that do
refresh the timestamp). -/
def wstep : WEvent → GuiState → GuiState × List DevCall
  | WEvent.startMove d t, s =>
    (match d with
     | MoveDir.up => move_up ConnectRes.success (Except.ok ()) t s
     | MoveDir.down => move_down ConnectRes.success (Except.ok ()) t s
     | MoveDir.left => move_left ConnectRes.success (Except.ok ()) t s
     | MoveDir.right => move_right ConnectRes.success (Except.ok ()) t s)
  | WEvent.startZoom d t, s =>
    (match d with
     | ZoomDir.zin => zoom_in ConnectRes.success (Except.ok ()) t s
     | ZoomDir.zout => zoom_out ConnectRes.success (Except.ok ()) t s)
  | WEvent.startFocus d t, s =>
    (match d with
     | FocusDir.near => focus_near ConnectRes.success (Except.ok ()) t s
     | FocusDir.far => focus_far ConnectRes.success (Except.ok ()) t s)
  | WEvent.tick t dev, s => check_movement_timeout t dev s

/-- Run a watchdog trace, collecting all device calls. -/
def wrun : List WEvent → GuiState → GuiState × List DevCall
  | [], s => (s, [])
  | e :: rest, s =>
    let r1 := wstep e s
    let r2 := wrun rest r1.1
    (r2.1, r1.2 ++ r2.2)

/-- Every tick of the trace happens no later than the (then-current)
timestamp plus the timeout: the refresh discipline of the claim. -/
def ticksFresh : GuiState → List WEvent → Bool
  | _, [] => true
  | s, e :: rest =>
    (match e with
     | WEvent.tick t _ =>
       decide (t - s.last_movement_time ≤ s.movement_timeout)
     | _ => true) && ticksFresh (wstep e s).1 rest

/-- Operations that touch the activity log or the incoming-message
queue: a log append (every command method funnels through `add_log`),
an incoming-message poll, a `stop`, a `clear`, and a watchdog tick. -/
inductive QOp
  | logOp (m : String)
  | incomingOp (read : Except String String)
  | stopOp (cr : ConnectRes) (dev : Except String Unit)
  | clearOp (cr : ConnectRes) (dev : Except String Unit)
  | tickOp (t : ℚ) (dev : TickDev)

/-- Apply one queue-touching operation. -/
def qapply : QOp → GuiState → GuiState
  | QOp.logOp m, s => { s with log_messages := add_log s.log_messages m }
  | QOp.incomingOp rd, s => (check_incoming_messages rd s).1
  | QOp.stopOp cr dev, s => (stop cr dev s).1
  | QOp.clearOp cr dev, s => (clear cr dev s).1
  | QOp.tickOp t dev, s => (check_movement_timeout t dev s).1

/-- Run a sequence of queue-touching operations. -/
def qrun : List QOp → GuiState → GuiState
  | [], s => s
  | op :: rest, s => qrun rest (qapply op s)

/-- The eight speed-adjustment commands. -/
inductive SpeedOp
  | incPan
  | decPan
  | incTilt
  | decTilt
  | incZoom
  | decZoom
  | incFocus
  | decFocus
deriving DecidableEq, Repr

/-- Dispatch one speed-adjustment command. -/
def speed_apply : SpeedOp → GuiState → GuiState
  | SpeedOp.incPan, s => increase_pan_speed s
  | SpeedOp.decPan, s => decrease_pan_speed s
  | SpeedOp.incTilt, s => increase_tilt_speed s
  | SpeedOp.decTilt, s => decrease_tilt_speed s
  | SpeedOp.incZoom, s => increase_zoom_speed s
  | SpeedOp.decZoom, s => decrease_zoom_speed s
  | SpeedOp.incFocus, s => increase_focus_speed s
  | SpeedOp.decFocus, s => decrease_focus_speed s

/-- Run a sequence of speed-adjustment commands. -/
def speed_run : List SpeedOp → GuiState → GuiState
  | [], s => s
  | op :: rest, s => speed_run rest (speed_apply op s)

/-- The bounds each speed value is clamped to: pan and tilt in
`[0, 24]`, zoom and focus in `[0, 7]`. -/
def SpeedsInRange (s : GuiState) : Prop :=
  0 ≤ s.pan_speed ∧ s.pan_speed ≤ 24 ∧
  0 ≤ s.tilt_speed ∧ s.tilt_speed ≤ 24 ∧
  0 ≤ s.zoom_speed ∧ s.zoom_speed ≤ 7 ∧
  0 ≤ s.focus_speed ∧ s.focus_speed ≤ 7

instance (s : GuiState) : Decidable (SpeedsInRange s) := by
  unfold SpeedsInRange
  infer_instance

/-- The initial attribute values of `__init__` with a live camera handle
and the movement axis active (the spec's move-left scenario). -/
def wdState : GuiState :=
  { connection_string := "192.168.1.32:8234"
    camera := some liveCamera
    pan_speed := 5
    tilt_speed := 5
    zoom_speed := 5
    focus_speed := 5
    running := true
    status_message := "Moving LEFT"
    current_movement := some MoveDir.left
    last_movement_time := 0
    movement_timeout := 0.15
    current_zoom := none
    current_focus := none
    incoming_messages := []
    max_messages := 10
    log_messages := ["Moving LEFT"] }

/-- All three watchdog stop calls succeed. -/
def devAll : TickDev := ⟨true, true, true⟩

/-- `wdState` with the camera handle absent (session down). -/
def deadState : GuiState := { wdState with camera := none }

/-- Oracle for a key event while the transport is down and
reconnection fails. -/
def oDead : KeyOracle :=
  ⟨ConnectRes.failure "Connection refused", Except.ok (), 0,
    Except.ok 1, Except.ok 0⟩

/-- Oracle for a key event on a live session. -/
def oLive : KeyOracle :=
  ⟨ConnectRes.success, Except.ok (), 0, Except.ok 1, Except.ok 0⟩

/-- A descriptor whose `isOpen()` probe works but reports not-open (a
silently closed transport). -/
def closedOutput : Output := { isOpenVal := false, probeRaises := false }

/-- `wdState` whose transport has silently closed. -/
def closedState : GuiState :=
  { wdState with camera := some { output := some closedOutput } }

/-- All seven status queries succeed except the power query, which
raises. -/
def qPow : StatusQueries :=
  ⟨Except.error "power query failed", FieldRes.ok 100, FieldRes.ok (-50),
    FieldRes.ok 3, FieldRes.ok "1080p59.94", FieldRes.ok "Full Auto",
    FieldRes.ok "Auto"⟩

/-- All queries succeed except the video-format query, which raises a
handled exception type. -/
def qVF : StatusQueries :=
  ⟨Except.ok 1, FieldRes.ok 100, FieldRes.ok (-50), FieldRes.ok 3,
    FieldRes.errCaught, FieldRes.ok "Full Auto", FieldRes.ok "Auto"⟩

/-- The C8 invariant: both queues within their capacities. -/
def QInv (s : GuiState) : Prop :=
  s.log_messages.length ≤ 100 ∧
  s.incoming_messages.length ≤ s.max_messages

/-- `wdState` with all three axes active and pending incoming
messages. -/
def busyState : GuiState :=
  { wdState with
      current_zoom := some ZoomDir.zin,
      current_focus := some FocusDir.near,
      incoming_messages := ["raw1", "raw2"] }

theorem ensure_of_live (cr : ConnectRes) (s : GuiState)
    (h : (is_connected s).2 = true) : ensure_connected cr s = (s, true, 0) := by
  simp [ensure_connected, h]

theorem ensure_attempts_le_one (cr : ConnectRes) (s : GuiState) :
    (ensure_connected cr s).2.2 ≤ 1 := by
  unfold ensure_connected
  split
  · simp
  · cases cr <;> simp [connect_camera]

theorem connect_camera_live (s : GuiState) :
    (is_connected (connect_camera ConnectRes.success s).1).2 = true := by
  simp [connect_camera, is_connected, live_probe, liveCamera]

theorem is_connected_of_camera_eq (s s2 : GuiState)
    (h : s2.camera = s.camera) : (is_connected s2).2 = (is_connected s).2 := by
  simp [is_connected, h]

theorem ensure_ret_eq_post_live (cr : ConnectRes) (s : GuiState) :
    (ensure_connected cr s).2.1 = (is_connected (ensure_connected cr s).1).2 := by
  unfold ensure_connected
  split
  · next h => simp [h]
  · next h =>
    cases cr
    · simp [connect_camera, is_connected, live_probe, liveCamera]
    · simp [connect_camera, is_connected, live_probe] at h ⊢
      simp [h]

theorem ensure_fail_attempts (cr : ConnectRes) (s : GuiState)
    (h : (is_connected s).2 = false) : (ensure_connected cr s).2.2 = 1 := by
  unfold ensure_connected
  rw [h]
  cases cr <;> simp [connect_camera]

theorem ensureN_attempts_le (crs : List ConnectRes) (s : GuiState) :
    (ensureN crs s).2 ≤ crs.length := by
  induction crs generalizing s with
  | nil => simp [ensureN]
  | cons cr rest ih =>
    simp only [ensureN, List.length_cons]
    have h1 := ensure_attempts_le_one cr s
    have h2 := ih (ensure_connected cr s).1
    omega

theorem cmt_move_frame (now : ℚ) (dev : TickDev) (s : GuiState) :
    (cmt_move now dev s).1.camera = s.camera ∧
    (cmt_move now dev s).1.current_zoom = s.current_zoom ∧
    (cmt_move now dev s).1.current_focus = s.current_focus ∧
    (cmt_move now dev s).1.last_movement_time = s.last_movement_time ∧
    (cmt_move now dev s).1.movement_timeout = s.movement_timeout ∧
    (cmt_move now dev s).1.incoming_messages = s.incoming_messages ∧
    (cmt_move now dev s).1.max_messages = s.max_messages ∧
    (cmt_move now dev s).1.pan_speed = s.pan_speed ∧
    (cmt_move now dev s).1.tilt_speed = s.tilt_speed ∧
    (cmt_move now dev s).1.zoom_speed = s.zoom_speed ∧
    (cmt_move now dev s).1.focus_speed = s.focus_speed := by
  obtain ⟨cs, cam, ps, ts, zs, fsp, run, sm, cm, lmt, mt, cz, cf, im, mm, lm⟩ := s
  cases cm <;> cases cam <;> simp [cmt_move] <;> split_ifs <;> simp

theorem cmt_zoom_frame (now : ℚ) (dev : TickDev) (s : GuiState) :
    (cmt_zoom now dev s).1.camera = s.camera ∧
    (cmt_zoom now dev s).1.current_movement = s.current_movement ∧
    (cmt_zoom now dev s).1.current_focus = s.current_focus ∧
    (cmt_zoom now dev s).1.last_movement_time = s.last_movement_time ∧
    (cmt_zoom now dev s).1.movement_timeout = s.movement_timeout ∧
    (cmt_zoom now dev s).1.incoming_messages = s.incoming_messages ∧
    (cmt_zoom now dev s).1.max_messages = s.max_messages ∧
    (cmt_zoom now dev s).1.log_messages = s.log_messages ∧
    (cmt_zoom now dev s).1.pan_speed = s.pan_speed ∧
    (cmt_zoom now dev s).1.tilt_speed = s.tilt_speed ∧
    (cmt_zoom now dev s).1.zoom_speed = s.zoom_speed ∧
    (cmt_zoom now dev s).1.focus_speed = s.focus_speed := by
  obtain ⟨cs, cam, ps, ts, zs, fsp, run, sm, cm, lmt, mt, cz, cf, im, mm, lm⟩ := s
  cases cz <;> cases cam <;> simp [cmt_zoom] <;> split_ifs <;> simp

theorem cmt_focus_frame (now : ℚ) (dev : TickDev) (s : GuiState) :
    (cmt_focus now dev s).1.camera = s.camera ∧
    (cmt_focus now dev s).1.current_movement = s.current_movement ∧
    (cmt_focus now dev s).1.current_zoom = s.current_zoom ∧
    (cmt_focus now dev s).1.last_movement_time = s.last_movement_time ∧
    (cmt_focus now dev s).1.movement_timeout = s.movement_timeout ∧
    (cmt_focus now dev s).1.incoming_messages = s.incoming_messages ∧
    (cmt_focus now dev s).1.max_messages = s.max_messages ∧
    (cmt_focus now dev s).1.log_messages = s.log_messages ∧
    (cmt_focus now dev s).1.pan_speed = s.pan_speed ∧
    (cmt_focus now dev s).1.tilt_speed = s.tilt_speed ∧
    (cmt_focus now dev s).1.zoom_speed = s.zoom_speed ∧
    (cmt_focus now dev s).1.focus_speed = s.focus_speed := by
  obtain ⟨cs, cam, ps, ts, zs, fsp, run, sm, cm, lmt, mt, cz, cf, im, mm, lm⟩ := s
  cases cf <;> cases cam <;> simp [cmt_focus] <;> split_ifs <;> simp

theorem cmt_move_calls (now : ℚ) (dev : TickDev) (s : GuiState) :
    (cmt_move now dev s).2 = [] ∨ (cmt_move now dev s).2 = [DevCall.stop] := by
  obtain ⟨cs, cam, ps, ts, zs, fsp, run, sm, cm, lmt, mt, cz, cf, im, mm, lm⟩ := s
  cases cm <;> cases cam <;> simp [cmt_move] <;> split_ifs <;> simp

theorem cmt_zoom_calls (now : ℚ) (dev : TickDev) (s : GuiState) :
    (cmt_zoom now dev s).2 = [] ∨ (cmt_zoom now dev s).2 = [DevCall.zoomStop] := by
  obtain ⟨cs, cam, ps, ts, zs, fsp, run, sm, cm, lmt, mt, cz, cf, im, mm, lm⟩ := s
  cases cz <;> cases cam <;> simp [cmt_zoom] <;> split_ifs <;> simp

theorem cmt_focus_calls (now : ℚ) (dev : TickDev) (s : GuiState) :
    (cmt_focus now dev s).2 = [] ∨ (cmt_focus now dev s).2 = [DevCall.focusStop] := by
  obtain ⟨cs, cam, ps, ts, zs, fsp, run, sm, cm, lmt, mt, cz, cf, im, mm, lm⟩ := s
  cases cf <;> cases cam <;> simp [cmt_focus] <;> split_ifs <;> simp

theorem cmt_move_none (now : ℚ) (dev : TickDev) (s : GuiState)
    (h : s.current_movement = none) : cmt_move now dev s = (s, []) := by
  unfold cmt_move
  rw [h]

theorem cmt_zoom_none (now : ℚ) (dev : TickDev) (s : GuiState)
    (h : s.current_zoom = none) : cmt_zoom now dev s = (s, []) := by
  unfold cmt_zoom
  rw [h]

theorem cmt_focus_none (now : ℚ) (dev : TickDev) (s : GuiState)
    (h : s.current_focus = none) : cmt_focus now dev s = (s, []) := by
  unfold cmt_focus
  rw [h]

theorem cmt_move_fresh (now : ℚ) (dev : TickDev) (s : GuiState)
    (h : now - s.last_movement_time ≤ s.movement_timeout) :
    cmt_move now dev s = (s, []) := by
  unfold cmt_move
  cases hcm : s.current_movement with
  | none => rfl
  | some d =>
    simp only
    rw [if_neg (not_lt.mpr h)]

theorem cmt_zoom_fresh (now : ℚ) (dev : TickDev) (s : GuiState)
    (h : now - s.last_movement_time ≤ s.movement_timeout) :
    cmt_zoom now dev s = (s, []) := by
  unfold cmt_zoom
  cases hcz : s.current_zoom with
  | none => rfl
  | some d =>
    simp only
    rw [if_neg (not_lt.mpr h)]

theorem cmt_focus_fresh (now : ℚ) (dev : TickDev) (s : GuiState)
    (h : now - s.last_movement_time ≤ s.movement_timeout) :
    cmt_focus now dev s = (s, []) := by
  unfold cmt_focus
  cases hcf : s.current_focus with
  | none => rfl
  | some d =>
    simp only
    rw [if_neg (not_lt.mpr h)]

theorem tick_fresh (now : ℚ) (dev : TickDev) (s : GuiState)
    (h : now - s.last_movement_time ≤ s.movement_timeout) :
    check_movement_timeout now dev s = (s, []) := by
  simp [check_movement_timeout, cmt_move_fresh now dev s h,
    cmt_zoom_fresh now dev s h, cmt_focus_fresh now dev s h]

theorem cmt_move_fires (now : ℚ) (dev : TickDev) (s : GuiState) (d : MoveDir)
    (hm : s.current_movement = some d)
    (ht : now - s.last_movement_time > s.movement_timeout)
    (hc : s.camera.isSome = true) (hok : dev.stopOk = true) :
    cmt_move now dev s =
      ({ s with
          current_movement := none,
          status_message := "Movement stopped",
          log_messages := add_log s.log_messages "Movement stopped (timeout)" },
       [DevCall.stop]) := by
  obtain ⟨cs, cam, ps, ts, zs, fsp, run, sm, cm, lmt, mt, cz, cf, im, mm, lm⟩ := s
  simp only at hm ht hc
  cases cm <;> cases cam <;> simp_all [cmt_move]

theorem cmt_move_fails (now : ℚ) (dev : TickDev) (s : GuiState) (d : MoveDir)
    (hm : s.current_movement = some d)
    (ht : now - s.last_movement_time > s.movement_timeout)
    (hc : s.camera.isSome = true) (hok : dev.stopOk = false) :
    cmt_move now dev s = (s, [DevCall.stop]) := by
  obtain ⟨cs, cam, ps, ts, zs, fsp, run, sm, cm, lmt, mt, cz, cf, im, mm, lm⟩ := s
  simp only at hm ht hc
  cases cm <;> cases cam <;> simp_all [cmt_move]

theorem cmt_zoom_fires (now : ℚ) (dev : TickDev) (s : GuiState) (d : ZoomDir)
    (hm : s.current_zoom = some d)
    (ht : now - s.last_movement_time > s.movement_timeout)
    (hc : s.camera.isSome = true) (hok : dev.zoomStopOk = true) :
    cmt_zoom now dev s = ({ s with current_zoom := none }, [DevCall.zoomStop]) := by
  obtain ⟨cs, cam, ps, ts, zs, fsp, run, sm, cm, lmt, mt, cz, cf, im, mm, lm⟩ := s
  simp only at hm ht hc
  cases cz <;> cases cam <;> simp_all [cmt_zoom]

theorem cmt_focus_fires (now : ℚ) (dev : TickDev) (s : GuiState) (d : FocusDir)
    (hm : s.current_focus = some d)
    (ht : now - s.last_movement_time > s.movement_timeout)
    (hc : s.camera.isSome = true) (hok : dev.focusStopOk = true) :
    cmt_focus now dev s = ({ s with current_focus := none }, [DevCall.focusStop]) := by
  obtain ⟨cs, cam, ps, ts, zs, fsp, run, sm, cm, lmt, mt, cz, cf, im, mm, lm⟩ := s
  simp only at hm ht hc
  cases cf <;> cases cam <;> simp_all [cmt_focus]

theorem count_stop_zoom_calls (now : ℚ) (dev : TickDev) (s : GuiState) :
    (cmt_zoom now dev s).2.count DevCall.stop = 0 ∧
    (cmt_zoom now dev s).2.count DevCall.focusStop = 0 := by
  rcases cmt_zoom_calls now dev s with h | h <;> rw [h] <;> simp [List.count_cons]

theorem count_stop_focus_calls (now : ℚ) (dev : TickDev) (s : GuiState) :
    (cmt_focus now dev s).2.count DevCall.stop = 0 ∧
    (cmt_focus now dev s).2.count DevCall.zoomStop = 0 := by
  rcases cmt_focus_calls now dev s with h | h <;> rw [h] <;> simp [List.count_cons]

theorem count_move_calls (now : ℚ) (dev : TickDev) (s : GuiState) :
    (cmt_move now dev s).2.count DevCall.zoomStop = 0 ∧
    (cmt_move now dev s).2.count DevCall.focusStop = 0 := by
  rcases cmt_move_calls now dev s with h | h <;> rw [h] <;> simp [List.count_cons]

theorem tail_after_move (now : ℚ) (dev : TickDev) (sA : GuiState) :
    (cmt_focus now dev (cmt_zoom now dev sA).1).1.current_movement =
      sA.current_movement ∧
    ((cmt_zoom now dev sA).2 ++
      (cmt_focus now dev (cmt_zoom now dev sA).1).2).count DevCall.stop = 0 := by
  have a := cmt_zoom_frame now dev sA
  have b := cmt_focus_frame now dev (cmt_zoom now dev sA).1
  have ac := count_stop_zoom_calls now dev sA
  have bc := count_stop_focus_calls now dev (cmt_zoom now dev sA).1
  exact ⟨by rw [b.2.1, a.2.1],
    by rw [List.count_append, ac.1, bc.1]⟩

theorem tick_move_fires (now : ℚ) (dev : TickDev) (s : GuiState) (d : MoveDir)
    (hm : s.current_movement = some d)
    (ht : now - s.last_movement_time > s.movement_timeout)
    (hc : s.camera.isSome = true) (hok : dev.stopOk = true) :
    (check_movement_timeout now dev s).1.current_movement = none ∧
    (check_movement_timeout now dev s).2.count DevCall.stop = 1 := by
  have h1 := cmt_move_fires now dev s d hm ht hc hok
  simp only [check_movement_timeout, h1]
  have t := tail_after_move now dev
    ({ s with
        current_movement := none,
        status_message := "Movement stopped",
        log_messages := add_log s.log_messages "Movement stopped (timeout)" })
  refine ⟨by rw [t.1], ?_⟩
  rw [List.count_append, t.2]
  simp [List.count_cons]

theorem tick_zoom_fires (now : ℚ) (dev : TickDev) (s : GuiState) (d : ZoomDir)
    (hm : s.current_zoom = some d)
    (ht : now - s.last_movement_time > s.movement_timeout)
    (hc : s.camera.isSome = true) (hok : dev.zoomStopOk = true) :
    (check_movement_timeout now dev s).1.current_zoom = none ∧
    (check_movement_timeout now dev s).2.count DevCall.zoomStop = 1 := by
  have f1 := cmt_move_frame now dev s
  have c1 := count_move_calls now dev s
  have h2 := cmt_zoom_fires now dev (cmt_move now dev s).1 d
    (by rw [f1.2.1, hm]) (by rw [f1.2.2.2.1, f1.2.2.2.2.1]; exact ht)
    (by rw [f1.1]; exact hc) hok
  simp only [check_movement_timeout, h2]
  have f3 := cmt_focus_frame now dev
    ({ (cmt_move now dev s).1 with current_zoom := none })
  have c3 := count_stop_focus_calls now dev
    ({ (cmt_move now dev s).1 with current_zoom := none })
  refine ⟨by rw [f3.2.2.1], ?_⟩
  rw [List.count_append, List.count_append, c1.1, c3.2]
  simp [List.count_cons]

theorem tick_focus_fires (now : ℚ) (dev : TickDev) (s : GuiState) (d : FocusDir)
    (hm : s.current_focus = some d)
    (ht : now - s.last_movement_time > s.movement_timeout)
    (hc : s.camera.isSome = true) (hok : dev.focusStopOk = true) :
    (check_movement_timeout now dev s).1.current_focus = none ∧
    (check_movement_timeout now dev s).2.count DevCall.focusStop = 1 := by
  have f1 := cmt_move_frame now dev s
  have c1 := count_move_calls now dev s
  have f2 := cmt_zoom_frame now dev (cmt_move now dev s).1
  have c2 := count_stop_zoom_calls now dev (cmt_move now dev s).1
  have h3 := cmt_focus_fires now dev (cmt_zoom now dev (cmt_move now dev s).1).1 d
    (by rw [f2.2.2.1, f1.2.2.1, hm])
    (by rw [f2.2.2.2.1, f2.2.2.2.2.1, f1.2.2.2.1, f1.2.2.2.2.1]; exact ht)
    (by rw [f2.1, f1.1]; exact hc) hok
  simp only [check_movement_timeout, h3]
  refine ⟨by simp, ?_⟩
  rw [List.count_append, List.count_append, c1.2, c2.2]
  simp [List.count_cons]

theorem tick_move_none (now : ℚ) (dev : TickDev) (s : GuiState)
    (h : s.current_movement = none) :
    (check_movement_timeout now dev s).1.current_movement = none ∧
    (check_movement_timeout now dev s).2.count DevCall.stop = 0 := by
  have h1 := cmt_move_none now dev s h
  simp only [check_movement_timeout, h1]
  have t := tail_after_move now dev s
  exact ⟨by rw [t.1]; exact h, by simpa using t.2⟩

theorem tick_zoom_none (now : ℚ) (dev : TickDev) (s : GuiState)
    (h : s.current_zoom = none) :
    (check_movement_timeout now dev s).1.current_zoom = none ∧
    (check_movement_timeout now dev s).2.count DevCall.zoomStop = 0 := by
  have f1 := cmt_move_frame now dev s
  have c1 := count_move_calls now dev s
  have h2 := cmt_zoom_none now dev (cmt_move now dev s).1 (by rw [f1.2.1]; exact h)
  simp only [check_movement_timeout, h2]
  have f3 := cmt_focus_frame now dev (cmt_move now dev s).1
  have c3 := count_stop_focus_calls now dev (cmt_move now dev s).1
  refine ⟨by rw [f3.2.2.1, f1.2.1]; exact h, ?_⟩
  rw [List.count_append, List.count_append, c1.1, c3.2]
  simp

theorem tick_focus_none (now : ℚ) (dev : TickDev) (s : GuiState)
    (h : s.current_focus = none) :
    (check_movement_timeout now dev s).1.current_focus = none ∧
    (check_movement_timeout now dev s).2.count DevCall.focusStop = 0 := by
  have f1 := cmt_move_frame now dev s
  have c1 := count_move_calls now dev s
  have f2 := cmt_zoom_frame now dev (cmt_move now dev s).1
  have c2 := count_stop_zoom_calls now dev (cmt_move now dev s).1
  have h3 := cmt_focus_none now dev (cmt_zoom now dev (cmt_move now dev s).1).1
    (by rw [f2.2.2.1, f1.2.2.1]; exact h)
  simp only [check_movement_timeout, h3]
  refine ⟨by rw [f2.2.2.1, f1.2.2.1]; exact h, ?_⟩
  rw [List.count_append, List.count_append, c1.2, c2.2]
  simp

theorem runTicks_move_none (tks : List (ℚ × TickDev)) (s : GuiState)
    (h : s.current_movement = none) :
    (runTicks tks s).1.current_movement = none ∧
    (runTicks tks s).2.count DevCall.stop = 0 := by
  induction tks generalizing s with
  | nil => simpa [runTicks] using h
  | cons td rest ih =>
    obtain ⟨t, dv⟩ := td
    have h1 := tick_move_none t dv s h
    have h2 := ih (check_movement_timeout t dv s).1 h1.1
    simp only [runTicks]
    exact ⟨h2.1, by rw [List.count_append, h1.2, h2.2]⟩

theorem runTicks_zoom_none (tks : List (ℚ × TickDev)) (s : GuiState)
    (h : s.current_zoom = none) :
    (runTicks tks s).1.current_zoom = none ∧
    (runTicks tks s).2.count DevCall.zoomStop = 0 := by
  induction tks generalizing s with
  | nil => simpa [runTicks] using h
  | cons td rest ih =>
    obtain ⟨t, dv⟩ := td
    have h1 := tick_zoom_none t dv s h
    have h2 := ih (check_movement_timeout t dv s).1 h1.1
    simp only [runTicks]
    exact ⟨h2.1, by rw [List.count_append, h1.2, h2.2]⟩

theorem runTicks_focus_none (tks : List (ℚ × TickDev)) (s : GuiState)
    (h : s.current_focus = none) :
    (runTicks tks s).1.current_focus = none ∧
    (runTicks tks s).2.count DevCall.focusStop = 0 := by
  induction tks generalizing s with
  | nil => simpa [runTicks] using h
  | cons td rest ih =>
    obtain ⟨t, dv⟩ := td
    have h1 := tick_focus_none t dv s h
    have h2 := ih (check_movement_timeout t dv s).1 h1.1
    simp only [runTicks]
    exact ⟨h2.1, by rw [List.count_append, h1.2, h2.2]⟩

theorem move_up_live (t : ℚ) (s : GuiState) (h : (is_connected s).2 = true) :
    move_up ConnectRes.success (Except.ok ()) t s =
      ({ s with
          current_movement := some MoveDir.up,
          last_movement_time := t,
          status_message := "Moving UP",
          log_messages := add_log s.log_messages "Moving UP" },
       [DevCall.up s.tilt_speed]) := by
  simp [move_up, ensure_of_live ConnectRes.success s h]

theorem move_down_live (t : ℚ) (s : GuiState) (h : (is_connected s).2 = true) :
    move_down ConnectRes.success (Except.ok ()) t s =
      ({ s with
          current_movement := some MoveDir.down,
          last_movement_time := t,
          status_message := "Moving DOWN",
          log_messages := add_log s.log_messages "Moving DOWN" },
       [DevCall.down s.tilt_speed]) := by
  simp [move_down, ensure_of_live ConnectRes.success s h]

theorem move_left_live (t : ℚ) (s : GuiState) (h : (is_connected s).2 = true) :
    move_left ConnectRes.success (Except.ok ()) t s =
      ({ s with
          current_movement := some MoveDir.left,
          last_movement_time := t,
          status_message := "Moving LEFT",
          log_messages := add_log s.log_messages "Moving LEFT" },
       [DevCall.left s.pan_speed]) := by
  simp [move_left, ensure_of_live ConnectRes.success s h]

theorem move_right_live (t : ℚ) (s : GuiState) (h : (is_connected s).2 = true) :
    move_right ConnectRes.success (Except.ok ()) t s =
      ({ s with
          current_movement := some MoveDir.right,
          last_movement_time := t,
          status_message := "Moving RIGHT",
          log_messages := add_log s.log_messages "Moving RIGHT" },
       [DevCall.right s.pan_speed]) := by
  simp [move_right, ensure_of_live ConnectRes.success s h]

theorem zoom_in_live (t : ℚ) (s : GuiState) (h : (is_connected s).2 = true) :
    zoom_in ConnectRes.success (Except.ok ()) t s =
      ({ s with
          current_zoom := some ZoomDir.zin,
          last_movement_time := t,
          status_message := "Zooming IN",
          log_messages := add_log s.log_messages "Zooming IN" },
       [DevCall.zoomIn s.zoom_speed]) := by
  simp [zoom_in, ensure_of_live ConnectRes.success s h]

theorem zoom_out_live (t : ℚ) (s : GuiState) (h : (is_connected s).2 = true) :
    zoom_out ConnectRes.success (Except.ok ()) t s =
      ({ s with
          current_zoom := some ZoomDir.zout,
          last_movement_time := t,
          status_message := "Zooming OUT",
          log_messages := add_log s.log_messages "Zooming OUT" },
       [DevCall.zoomOut s.zoom_speed]) := by
  simp [zoom_out, ensure_of_live ConnectRes.success s h]

theorem focus_near_live (t : ℚ) (s : GuiState) (h : (is_connected s).2 = true) :
    focus_near ConnectRes.success (Except.ok ()) t s =
      ({ s with
          current_focus := some FocusDir.near,
          last_movement_time := t,
          status_message := "Focus NEAR",
          log_messages := add_log s.log_messages "Focus NEAR" },
       [DevCall.focusNear s.focus_speed]) := by
  simp [focus_near, ensure_of_live ConnectRes.success s h]

theorem focus_far_live (t : ℚ) (s : GuiState) (h : (is_connected s).2 = true) :
    focus_far ConnectRes.success (Except.ok ()) t s =
      ({ s with
          current_focus := some FocusDir.far,
          last_movement_time := t,
          status_message := "Focus FAR",
          log_messages := add_log s.log_messages "Focus FAR" },
       [DevCall.focusFar s.focus_speed]) := by
  simp [focus_far, ensure_of_live ConnectRes.success s h]

theorem wstep_start (e : WEvent) (s : GuiState) (h : (is_connected s).2 = true)
    (hnt : ∀ t dv, e ≠ WEvent.tick t dv) :
    (wstep e s).1.camera = s.camera ∧
    (wstep e s).2.count DevCall.stop = 0 ∧
    (wstep e s).2.count DevCall.zoomStop = 0 ∧
    (wstep e s).2.count DevCall.focusStop = 0 := by
  cases e with
  | startMove d t =>
    cases d <;>
      simp [wstep, move_up_live t s h, move_down_live t s h,
        move_left_live t s h, move_right_live t s h, List.count_cons]
  | startZoom d t =>
    cases d <;>
      simp [wstep, zoom_in_live t s h, zoom_out_live t s h, List.count_cons]
  | startFocus d t =>
    cases d <;>
      simp [wstep, focus_near_live t s h, focus_far_live t s h, List.count_cons]
  | tick t dv => exact absurd rfl (hnt t dv)

theorem tick_camera (now : ℚ) (dev : TickDev) (s : GuiState) :
    (check_movement_timeout now dev s).1.camera = s.camera := by
  have f1 := cmt_move_frame now dev s
  have f2 := cmt_zoom_frame now dev (cmt_move now dev s).1
  have f3 := cmt_focus_frame now dev (cmt_zoom now dev (cmt_move now dev s).1).1
  simp only [check_movement_timeout]
  rw [f3.1, f2.1, f1.1]

theorem tick_time_frame (now : ℚ) (dev : TickDev) (s : GuiState) :
    (check_movement_timeout now dev s).1.last_movement_time =
      s.last_movement_time ∧
    (check_movement_timeout now dev s).1.movement_timeout =
      s.movement_timeout := by
  have f1 := cmt_move_frame now dev s
  have f2 := cmt_zoom_frame now dev (cmt_move now dev s).1
  have f3 := cmt_focus_frame now dev (cmt_zoom now dev (cmt_move now dev s).1).1
  simp only [check_movement_timeout]
  constructor
  · rw [f3.2.2.2.1, f2.2.2.2.1, f1.2.2.2.1]
  · rw [f3.2.2.2.2.1, f2.2.2.2.2.1, f1.2.2.2.2.1]

theorem speed_apply_range (op : SpeedOp) (s : GuiState)
    (h : SpeedsInRange s) : SpeedsInRange (speed_apply op s) := by
  obtain ⟨h1, h2, h3, h4, h5, h6, h7, h8⟩ := h
  cases op <;>
    simp only [speed_apply, increase_pan_speed, decrease_pan_speed,
      increase_tilt_speed, decrease_tilt_speed, increase_zoom_speed,
      decrease_zoom_speed, increase_focus_speed, decrease_focus_speed,
      SpeedsInRange] <;>
    refine ⟨?_, ?_, ?_, ?_, ?_, ?_, ?_, ?_⟩ <;> omega

theorem speed_run_range (ops : List SpeedOp) (s : GuiState)
    (h : SpeedsInRange s) : SpeedsInRange (speed_run ops s) := by
  induction ops generalizing s with
  | nil => simpa [speed_run] using h
  | cons op rest ih => exact ih (speed_apply op s) (speed_apply_range op s h)

theorem ensure_connected_failure (e : String) (s : GuiState)
    (h : live_probe s.camera = false) :
    ensure_connected (ConnectRes.failure e) s =
      ({ s with
          status_message := "Connection failed: " ++ e,
          log_messages :=
            add_log s.log_messages ("Connection failed: " ++ e) },
       false, 1) := by
  simp [ensure_connected, is_connected, h, connect_camera]

theorem key_handler_gate_fail (o : KeyOracle) (k : Key) (s : GuiState)
    (e : String) (hl : live_probe s.camera = false)
    (hcr : o.cr = ConnectRes.failure e) :
    key_handler o k s =
      ({ s with
          status_message := "Connection failed: " ++ e,
          log_messages :=
            add_log s.log_messages ("Connection failed: " ++ e) },
       []) := by
  simp only [key_handler, hcr, ensure_connected_failure e s hl]
  simp

theorem add_log_le (l : List String) (m : String) (h : l.length ≤ 100) :
    (add_log l m).length ≤ 100 := by
  simp only [add_log]
  split_ifs with h2 <;> simp at h2 ⊢ <;> omega

theorem push_incoming_le (q : List String) (M : Nat) (r : String)
    (h : q.length ≤ M) : (push_incoming q M r).length ≤ M := by
  simp only [push_incoming]
  split_ifs with h2 <;> simp at h2 ⊢ <;> omega

theorem add_log_suffix (l : List String) (m : String) :
    (add_log l m).IsSuffix (l ++ [m]) := by
  simp only [add_log]
  split_ifs with h2
  · exact List.drop_suffix _ _
  · exact List.suffix_refl _

theorem add_log_of_lt (l : List String) (m : String) (h : l.length < 100) :
    add_log l m = l ++ [m] := by
  simp only [add_log]
  rw [if_neg (by simp; omega)]

theorem push_incoming_suffix (q : List String) (M : Nat) (r : String) :
    (push_incoming q M r).IsSuffix (q ++ [r]) := by
  simp only [push_incoming]
  split_ifs with h2
  · exact List.drop_suffix _ _
  · exact List.suffix_refl _

theorem push_incoming_of_lt (q : List String) (M : Nat) (r : String)
    (h : q.length < M) : push_incoming q M r = q ++ [r] := by
  simp only [push_incoming]
  rw [if_neg (by simp; omega)]

theorem cmt_move_log (now : ℚ) (dev : TickDev) (s : GuiState) :
    (cmt_move now dev s).1.log_messages = s.log_messages ∨
    (cmt_move now dev s).1.log_messages =
      add_log s.log_messages "Movement stopped (timeout)" := by
  obtain ⟨cs, cam, ps, ts, zs, fsp, run, sm, cm, lmt, mt, cz, cf, im, mm, lm⟩ := s
  cases cm <;> cases cam <;> simp [cmt_move] <;> split_ifs <;> simp

theorem connect_camera_q (cr : ConnectRes) (s : GuiState) :
    (connect_camera cr s).1.max_messages = s.max_messages ∧
    (connect_camera cr s).1.incoming_messages = s.incoming_messages ∧
    ∃ m, (connect_camera cr s).1.log_messages = add_log s.log_messages m := by
  cases cr <;> simp [connect_camera]

theorem ensure_q (cr : ConnectRes) (s : GuiState) :
    (ensure_connected cr s).1.max_messages = s.max_messages ∧
    (ensure_connected cr s).1.incoming_messages = s.incoming_messages ∧
    ((ensure_connected cr s).1.log_messages = s.log_messages ∨
      ∃ m, (ensure_connected cr s).1.log_messages =
        add_log s.log_messages m) := by
  simp only [ensure_connected]
  split_ifs with hc hr
  · exact ⟨rfl, rfl, Or.inl rfl⟩
  · have hq := connect_camera_q cr { s with status_message := "Reconnecting..." }
    exact ⟨hq.1, hq.2.1, Or.inr hq.2.2⟩
  · have hq := connect_camera_q cr { s with status_message := "Reconnecting..." }
    exact ⟨hq.1, hq.2.1, Or.inr hq.2.2⟩

theorem ensure_log_le (cr : ConnectRes) (s : GuiState)
    (h : s.log_messages.length ≤ 100) :
    (ensure_connected cr s).1.log_messages.length ≤ 100 := by
  rcases (ensure_q cr s).2.2 with hL | ⟨m, hL⟩ <;> rw [hL]
  · exact h
  · exact add_log_le _ _ h

theorem qapply_qinv (op : QOp) (s : GuiState) (h : QInv s) :
    QInv (qapply op s) ∧ (qapply op s).max_messages = s.max_messages := by
  obtain ⟨hl, hi⟩ := h
  cases op with
  | logOp m => exact ⟨⟨add_log_le _ _ hl, hi⟩, rfl⟩
  | incomingOp rd =>
    simp only [qapply, check_incoming_messages]
    split
    · exact ⟨⟨hl, hi⟩, rfl⟩
    · split_ifs with h1
      · exact ⟨⟨hl, hi⟩, rfl⟩
      · split
        · exact ⟨⟨hl, hi⟩, rfl⟩
        · split_ifs with h2
          · exact ⟨⟨add_log_le _ _ hl, push_incoming_le _ _ _ hi⟩, rfl⟩
          · exact ⟨⟨hl, hi⟩, rfl⟩
  | stopOp cr dev =>
    have hq := ensure_q cr s
    have hle := ensure_log_le cr s hl
    simp only [qapply, stop]
    split_ifs with h1
    · split
      · exact ⟨⟨add_log_le _ _ hle, by simp⟩, hq.1⟩
      · refine ⟨⟨add_log_le _ _ hle, ?_⟩, hq.1⟩
        show (ensure_connected cr s).1.incoming_messages.length ≤
          (ensure_connected cr s).1.max_messages
        rw [hq.2.1, hq.1]
        exact hi
    · refine ⟨⟨hle, ?_⟩, hq.1⟩
      show (ensure_connected cr s).1.incoming_messages.length ≤
        (ensure_connected cr s).1.max_messages
      rw [hq.2.1, hq.1]
      exact hi
  | clearOp cr dev =>
    have hq := ensure_q cr s
    have hle := ensure_log_le cr s hl
    simp only [qapply, clear]
    split_ifs with h1
    · split
      · exact ⟨⟨add_log_le _ _ hle, by simp⟩, hq.1⟩
      · refine ⟨⟨add_log_le _ _ hle, ?_⟩, hq.1⟩
        show (ensure_connected cr s).1.incoming_messages.length ≤
          (ensure_connected cr s).1.max_messages
        rw [hq.2.1, hq.1]
        exact hi
    · refine ⟨⟨hle, ?_⟩, hq.1⟩
      show (ensure_connected cr s).1.incoming_messages.length ≤
        (ensure_connected cr s).1.max_messages
      rw [hq.2.1, hq.1]
      exact hi
  | tickOp t dev =>
    have f1 := cmt_move_frame t dev s
    have f2 := cmt_zoom_frame t dev (cmt_move t dev s).1
    have f3 := cmt_focus_frame t dev (cmt_zoom t dev (cmt_move t dev s).1).1
    have hlog1 := cmt_move_log t dev s
    refine ⟨⟨?_, ?_⟩, ?_⟩
    · simp only [qapply, check_movement_timeout]
      rw [f3.2.2.2.2.2.2.2.1, f2.2.2.2.2.2.2.2.1]
      rcases hlog1 with hL | hL <;> rw [hL]
      · exact hl
      · exact add_log_le _ _ hl
    · simp only [qapply, check_movement_timeout]
      rw [f3.2.2.2.2.2.1, f2.2.2.2.2.2.1, f1.2.2.2.2.2.1,
        f3.2.2.2.2.2.2.1, f2.2.2.2.2.2.2.1, f1.2.2.2.2.2.2.1]
      exact hi
    · simp only [qapply, check_movement_timeout]
      rw [f3.2.2.2.2.2.2.1, f2.2.2.2.2.2.2.1, f1.2.2.2.2.2.2.1]

theorem qrun_qinv (ops : List QOp) (s : GuiState) (h : QInv s) :
    QInv (qrun ops s) ∧ (qrun ops s).max_messages = s.max_messages := by
  induction ops generalizing s with
  | nil => exact ⟨h, rfl⟩
  | cons op rest ih =>
    have h1 := qapply_qinv op s h
    have h2 := ih (qapply op s) h1.1
    exact ⟨h2.1, h2.2.trans h1.2⟩

/-- C1: for every axis (movement, zoom, focus) in a non-none mode, once
`now - last_movement_time` exceeds the timeout, the next watchdog tick
(with a live camera handle and a succeeding device stop) issues exactly
one stop call for that axis and resets the axis to none; and from any
state in which an axis is none, a run of further ticks issues no stop
for that axis and leaves it none until a new start occurs. -/
theorem c1_watchdog_convergence :
    (∀ (now : ℚ) (dev : TickDev) (s : GuiState) (d : MoveDir),
      s.camera.isSome = true → s.current_movement = some d →
      now - s.last_movement_time > s.movement_timeout → dev.stopOk = true →
      (check_movement_timeout now dev s).2.count DevCall.stop = 1 ∧
      (check_movement_timeout now dev s).1.current_movement = none) ∧
    (∀ (now : ℚ) (dev : TickDev) (s : GuiState) (d : ZoomDir),
      s.camera.isSome = true → s.current_zoom = some d →
      now - s.last_movement_time > s.movement_timeout → dev.zoomStopOk = true →
      (check_movement_timeout now dev s).2.count DevCall.zoomStop = 1 ∧
      (check_movement_timeout now dev s).1.current_zoom = none) ∧
    (∀ (now : ℚ) (dev : TickDev) (s : GuiState) (d : FocusDir),
      s.camera.isSome = true → s.current_focus = some d →
      now - s.last_movement_time > s.movement_timeout → dev.focusStopOk = true →
      (check_movement_timeout now dev s).2.count DevCall.focusStop = 1 ∧
      (check_movement_timeout now dev s).1.current_focus = none) ∧
    (∀ (tks : List (ℚ × TickDev)) (s : GuiState),
      s.current_movement = none →
      (runTicks tks s).2.count DevCall.stop = 0 ∧
      (runTicks tks s).1.current_movement = none) ∧
    (∀ (tks : List (ℚ × TickDev)) (s : GuiState),
      s.current_zoom = none →
      (runTicks tks s).2.count DevCall.zoomStop = 0 ∧
      (runTicks tks s).1.current_zoom = none) ∧
    (∀ (tks : List (ℚ × TickDev)) (s : GuiState),
      s.current_focus = none →
      (runTicks tks s).2.count DevCall.focusStop = 0 ∧
      (runTicks tks s).1.current_focus = none) := by
  refine ⟨?_, ?_, ?_, ?_, ?_, ?_⟩
  · intro now dev s d hc hm ht hok
    have h := tick_move_fires now dev s d hm ht hc hok
    exact ⟨h.2, h.1⟩
  · intro now dev s d hc hm ht hok
    have h := tick_zoom_fires now dev s d hm ht hc hok
    exact ⟨h.2, h.1⟩
  · intro now dev s d hc hm ht hok
    have h := tick_focus_fires now dev s d hm ht hc hok
    exact ⟨h.2, h.1⟩
  · intro tks s hm
    have h := runTicks_move_none tks s hm
    exact ⟨h.2, h.1⟩
  · intro tks s hm
    have h := runTicks_zoom_none tks s hm
    exact ⟨h.2, h.1⟩
  · intro tks s hm
    have h := runTicks_focus_none tks s hm
    exact ⟨h.2, h.1⟩

/-- Witness for C1: at 0.16s of silence the tick stops the movement axis
exactly once, and a subsequent tick issues no further stop. -/
theorem c1_watchdog_convergence_witness :
    ((check_movement_timeout 0.16 devAll wdState).2.count DevCall.stop = 1 ∧
     (check_movement_timeout 0.16 devAll wdState).1.current_movement = none) ∧
    (runTicks [(0.32, devAll)]
        (check_movement_timeout 0.16 devAll wdState).1).2.count
      DevCall.stop = 0 := by
  have h1 := c1_watchdog_convergence.1 0.16 devAll wdState MoveDir.left rfl rfl
    (by norm_num [wdState]) rfl
  exact ⟨h1,
    (c1_watchdog_convergence.2.2.2.1 [(0.32, devAll)]
      (check_movement_timeout 0.16 devAll wdState).1 h1.2).1⟩

/-- C2 counterexample: movement axis active in `wdState`, the timeout
has long expired at `now = 1`, and the device stop call raises
(`stopOk = false`): the stop is attempted but the axis is NOT reset to
none, contradicting the claim that it is. -/
theorem c2_counterexample :
    (check_movement_timeout 1 ⟨false, true, true⟩ wdState).2 =
      [DevCall.stop] ∧
    (check_movement_timeout 1 ⟨false, true, true⟩ wdState).1.current_movement =
      some MoveDir.left := by
  constructor <;>
    norm_num [check_movement_timeout, cmt_move, cmt_zoom, cmt_focus, wdState]

/-- C2 (amended): when the watchdog timeout fires and the device stop
raises, the error is swallowed (the tick completes and still processes
the other axes), but the axis stays active; the stop is retried on a
later tick and the axis is reset only once a stop succeeds. -/
theorem c2_failed_stop_leaves_axis_active :
    ∀ (now : ℚ) (dev : TickDev) (s : GuiState) (d : MoveDir),
      s.camera.isSome = true → s.current_movement = some d →
      now - s.last_movement_time > s.movement_timeout → dev.stopOk = false →
      (check_movement_timeout now dev s).2.count DevCall.stop = 1 ∧
      (check_movement_timeout now dev s).1.current_movement = some d ∧
      (∀ (zd : ZoomDir), s.current_zoom = some zd → dev.zoomStopOk = true →
        (check_movement_timeout now dev s).1.current_zoom = none) ∧
      (∀ (now2 : ℚ) (dev2 : TickDev), dev2.stopOk = true →
        now2 - (check_movement_timeout now dev s).1.last_movement_time >
          (check_movement_timeout now dev s).1.movement_timeout →
        (check_movement_timeout now2 dev2
          (check_movement_timeout now dev s).1).1.current_movement = none) := by
  intro now dev s d hc hm ht hok
  have h1 := cmt_move_fails now dev s d hm ht hc hok
  have t := tail_after_move now dev s
  refine ⟨?_, ?_, ?_, ?_⟩
  · simp only [check_movement_timeout, h1]
    rw [List.count_append, t.2]
    simp [List.count_cons]
  · simp only [check_movement_timeout, h1]
    rw [t.1]
    exact hm
  · intro zd hzm hzok
    exact (tick_zoom_fires now dev s zd hzm ht hc hzok).1
  · intro now2 dev2 hok2 ht2
    have hm2 : (check_movement_timeout now dev s).1.current_movement = some d := by
      simp only [check_movement_timeout, h1]
      rw [t.1]
      exact hm
    have hc2 : (check_movement_timeout now dev s).1.camera.isSome = true := by
      rw [tick_camera]
      exact hc
    exact (tick_move_fires now2 dev2 (check_movement_timeout now dev s).1 d
      hm2 ht2 hc2 hok2).1

/-- Witness for the amended C2: the failed stop at `now = 1` leaves the
axis active; a retry tick at `now = 2` with a succeeding stop resets it. -/
theorem c2_failed_stop_leaves_axis_active_witness :
    (check_movement_timeout 1 ⟨false, true, true⟩ wdState).2.count
      DevCall.stop = 1 ∧
    (check_movement_timeout 1 ⟨false, true, true⟩ wdState).1.current_movement =
      some MoveDir.left ∧
    (check_movement_timeout 2 devAll
      (check_movement_timeout 1 ⟨false, true, true⟩
        wdState).1).1.current_movement = none := by
  have h := c2_failed_stop_leaves_axis_active 1 ⟨false, true, true⟩ wdState
    MoveDir.left rfl rfl (by norm_num [wdState]) rfl
  refine ⟨h.1, h.2.1, h.2.2.2 2 devAll rfl ?_⟩
  norm_num [check_movement_timeout, cmt_move, cmt_zoom, cmt_focus, wdState]

/-- C6: as long as every watchdog tick happens within the timeout of the
latest (shared) timestamp refresh, a trace of motion starts and ticks
from a live session never issues any watchdog stop on any axis. -/
theorem c6_no_spurious_stop :
    ∀ (evs : List WEvent) (s : GuiState),
      (is_connected s).2 = true → ticksFresh s evs = true →
      (wrun evs s).2.count DevCall.stop = 0 ∧
      (wrun evs s).2.count DevCall.zoomStop = 0 ∧
      (wrun evs s).2.count DevCall.focusStop = 0 := by
  intro evs
  induction evs with
  | nil =>
    intro s h hf
    simp [wrun]
  | cons e rest ih =>
    intro s h hf
    simp only [ticksFresh, Bool.and_eq_true] at hf
    obtain ⟨hf1, hfrest⟩ := hf
    cases e with
    | tick t dv =>
      have ht : t - s.last_movement_time ≤ s.movement_timeout := by
        simpa using hf1
      have heq := tick_fresh t dv s ht
      have hs1 : (wstep (WEvent.tick t dv) s).1 = s := by
        simp [wstep, heq]
      rw [hs1] at hfrest
      have hr := ih s h hfrest
      simp only [wrun, wstep, heq]
      simpa using hr
    | startMove d t =>
      have hw := wstep_start (WEvent.startMove d t) s h (by intro t2 dv2 hne; cases hne)
      have hlive2 : (is_connected (wstep (WEvent.startMove d t) s).1).2 = true := by
        rw [is_connected_of_camera_eq s _ hw.1]
        exact h
      have hr := ih (wstep (WEvent.startMove d t) s).1 hlive2 hfrest
      simp only [wrun]
      refine ⟨?_, ?_, ?_⟩ <;>
        rw [List.count_append] <;>
        simp [hw.2.1, hw.2.2.1, hw.2.2.2, hr.1, hr.2.1, hr.2.2]
    | startZoom d t =>
      have hw := wstep_start (WEvent.startZoom d t) s h (by intro t2 dv2 hne; cases hne)
      have hlive2 : (is_connected (wstep (WEvent.startZoom d t) s).1).2 = true := by
        rw [is_connected_of_camera_eq s _ hw.1]
        exact h
      have hr := ih (wstep (WEvent.startZoom d t) s).1 hlive2 hfrest
      simp only [wrun]
      refine ⟨?_, ?_, ?_⟩ <;>
        rw [List.count_append] <;>
        simp [hw.2.1, hw.2.2.1, hw.2.2.2, hr.1, hr.2.1, hr.2.2]
    | startFocus d t =>
      have hw := wstep_start (WEvent.startFocus d t) s h (by intro t2 dv2 hne; cases hne)
      have hlive2 : (is_connected (wstep (WEvent.startFocus d t) s).1).2 = true := by
        rw [is_connected_of_camera_eq s _ hw.1]
        exact h
      have hr := ih (wstep (WEvent.startFocus d t) s).1 hlive2 hfrest
      simp only [wrun]
      refine ⟨?_, ?_, ?_⟩ <;>
        rw [List.count_append] <;>
        simp [hw.2.1, hw.2.2.1, hw.2.2.2, hr.1, hr.2.1, hr.2.2]

/-- Witness for C6: starts at t = 0 and t = 0.1 with ticks at 0.1 and
0.2, all within the 0.15s timeout of the latest refresh: no stop. -/
theorem c6_no_spurious_stop_witness :
    (wrun [WEvent.startMove MoveDir.left 0,
           WEvent.tick 0.1 devAll,
           WEvent.startMove MoveDir.left 0.1,
           WEvent.tick 0.2 devAll] wdState).2.count DevCall.stop = 0 := by
  refine (c6_no_spurious_stop _ wdState rfl ?_).1
  norm_num [ticksFresh, wstep, wdState, move_left_live,
    ensure_of_live, is_connected, live_probe, liveCamera, move_left,
    check_movement_timeout, cmt_move, cmt_zoom, cmt_focus, add_log]

set_option maxRecDepth 8000 in
/-- C9: the four speed values stay inside their clamping ranges under
any sequence of increment/decrement commands, and 30 pan increases from
speed 5 clamp at exactly 24. -/
theorem c9_speed_clamped :
    (∀ (ops : List SpeedOp) (s : GuiState),
      SpeedsInRange s → SpeedsInRange (speed_run ops s)) ∧
    (speed_run (List.replicate 30 SpeedOp.incPan) wdState).pan_speed = 24 := by
  constructor
  · exact speed_run_range
  · decide

/-- Witness for C9 at concrete inputs. -/
theorem c9_speed_clamped_witness :
    SpeedsInRange (speed_run [SpeedOp.incPan, SpeedOp.decZoom] wdState) ∧
    (speed_run (List.replicate 30 SpeedOp.incPan) wdState).pan_speed = 24 :=
  ⟨c9_speed_clamped.1 [SpeedOp.incPan, SpeedOp.decZoom] wdState (by decide),
   c9_speed_clamped.2⟩

/-- C3 (amended): the eight speed-adjustment methods touch only local
numeric state (camera handle untouched, value clamped) and need no
live session when invoked directly; via the keyboard handler a speed
key is dispatched to the same local update when the gate passes, but
the handler's up-front `ensure_connected` drops the key entirely when
the session is down and reconnection fails, leaving every speed
unchanged. -/
theorem c3_speed_local_but_key_gated :
    (∀ s : GuiState,
      (increase_pan_speed s).camera = s.camera ∧
      (increase_pan_speed s).pan_speed = min 24 (s.pan_speed + 1) ∧
      (decrease_pan_speed s).camera = s.camera ∧
      (decrease_pan_speed s).pan_speed = max 0 (s.pan_speed - 1) ∧
      (increase_tilt_speed s).camera = s.camera ∧
      (increase_tilt_speed s).tilt_speed = min 24 (s.tilt_speed + 1) ∧
      (decrease_tilt_speed s).camera = s.camera ∧
      (decrease_tilt_speed s).tilt_speed = max 0 (s.tilt_speed - 1) ∧
      (increase_zoom_speed s).camera = s.camera ∧
      (increase_zoom_speed s).zoom_speed = min 7 (s.zoom_speed + 1) ∧
      (decrease_zoom_speed s).camera = s.camera ∧
      (decrease_zoom_speed s).zoom_speed = max 0 (s.zoom_speed - 1) ∧
      (increase_focus_speed s).camera = s.camera ∧
      (increase_focus_speed s).focus_speed = min 7 (s.focus_speed + 1) ∧
      (decrease_focus_speed s).camera = s.camera ∧
      (decrease_focus_speed s).focus_speed = max 0 (s.focus_speed - 1)) ∧
    (∀ (o : KeyOracle) (s : GuiState), (is_connected s).2 = true →
      key_handler o Key.period s = (increase_pan_speed s, []) ∧
      key_handler o Key.comma s = (decrease_pan_speed s, []) ∧
      key_handler o Key.gt s = (increase_tilt_speed s, []) ∧
      key_handler o Key.lt s = (decrease_tilt_speed s, []) ∧
      key_handler o Key.d s = (increase_zoom_speed s, []) ∧
      key_handler o Key.a s = (decrease_zoom_speed s, []) ∧
      key_handler o Key.f s = (increase_focus_speed s, []) ∧
      key_handler o Key.s s = (decrease_focus_speed s, [])) ∧
    (∀ (o : KeyOracle) (k : Key) (s : GuiState) (e : String),
      live_probe s.camera = false → o.cr = ConnectRes.failure e →
      (key_handler o k s).1.pan_speed = s.pan_speed ∧
      (key_handler o k s).1.tilt_speed = s.tilt_speed ∧
      (key_handler o k s).1.zoom_speed = s.zoom_speed ∧
      (key_handler o k s).1.focus_speed = s.focus_speed) := by
  refine ⟨?_, ?_, ?_⟩
  · intro s
    exact ⟨rfl, rfl, rfl, rfl, rfl, rfl, rfl, rfl, rfl, rfl, rfl, rfl,
      rfl, rfl, rfl, rfl⟩
  · intro o s h
    refine ⟨?_, ?_, ?_, ?_, ?_, ?_, ?_, ?_⟩ <;>
      simp [key_handler, ensure_of_live o.cr s h]
  · intro o k s e hl hcr
    rw [key_handler_gate_fail o k s e hl hcr]
    exact ⟨rfl, rfl, rfl, rfl⟩

/-- C3 counterexample: with the session absent and reconnection
failing, the `.` key (increase pan speed) reaches the keyboard
handler's connection gate and is dropped: pan speed stays 5 instead of
becoming 6. -/
theorem c3_counterexample :
    deadState.pan_speed = 5 ∧
    (key_handler oDead Key.period deadState).1.pan_speed = 5 := by
  constructor
  · rfl
  · decide

/-- Witness for the amended C3: on a live session the `.` key performs
the local pan-speed update; on a dead session it leaves the speed
untouched. -/
theorem c3_speed_local_but_key_gated_witness :
    key_handler oLive Key.period wdState = (increase_pan_speed wdState, []) ∧
    (key_handler oDead Key.period deadState).1.pan_speed =
      deadState.pan_speed ∧
    (increase_pan_speed deadState).camera = deadState.camera := by
  refine ⟨(c3_speed_local_but_key_gated.2.1 oLive wdState rfl).1, ?_, ?_⟩
  · exact (c3_speed_local_but_key_gated.2.2 oDead Key.period deadState
      "Connection refused" rfl rfl).1
  · exact (c3_speed_local_but_key_gated.1 deadState).1

/-- C5: `ensure_connected` makes at most one construction attempt per
call (exactly one when not live, none when live), returns the liveness
of its post-state, and N chained calls make at most N attempts total. -/
theorem c5_bounded_retry :
    (∀ (cr : ConnectRes) (s : GuiState),
      (ensure_connected cr s).2.2 ≤ 1 ∧
      ((is_connected s).2 = true → ensure_connected cr s = (s, true, 0)) ∧
      ((is_connected s).2 = false → (ensure_connected cr s).2.2 = 1) ∧
      (ensure_connected cr s).2.1 = (is_connected (ensure_connected cr s).1).2) ∧
    (∀ (crs : List ConnectRes) (s : GuiState),
      (ensureN crs s).2 ≤ crs.length) :=
  ⟨fun cr s =>
    ⟨ensure_attempts_le_one cr s, ensure_of_live cr s,
     ensure_fail_attempts cr s, ensure_ret_eq_post_live cr s⟩,
   ensureN_attempts_le⟩

/-- Witness for C5: with the session down, one failing call makes
exactly one attempt, and three chained failing calls make at most
three. -/
theorem c5_bounded_retry_witness :
    (ensure_connected (ConnectRes.failure "unreachable") deadState).2.2 = 1 ∧
    (ensureN [ConnectRes.failure "unreachable",
      ConnectRes.failure "unreachable",
      ConnectRes.failure "unreachable"] deadState).2 ≤ 3 := by
  refine ⟨(c5_bounded_retry.1 (ConnectRes.failure "unreachable")
    deadState).2.2.1 rfl, ?_⟩
  simpa using c5_bounded_retry.2 [ConnectRes.failure "unreachable",
    ConnectRes.failure "unreachable", ConnectRes.failure "unreachable"]
    deadState

/-- C7: `is_connected` mutates nothing and is fail-closed: an absent
handle, an absent descriptor, or a raising probe all yield `false`
(exceptions are absorbed, never propagated: the embedding is total);
with a working probe it reports what `isOpen()` reports. -/
theorem c7_is_connected_fail_closed :
    ∀ s : GuiState,
      (is_connected s).1 = s ∧
      (s.camera = none → (is_connected s).2 = false) ∧
      (∀ c, s.camera = some c → c.output = none →
        (is_connected s).2 = false) ∧
      (∀ c o, s.camera = some c → c.output = some o →
        o.probeRaises = true → (is_connected s).2 = false) ∧
      (∀ c o, s.camera = some c → c.output = some o →
        o.probeRaises = false → (is_connected s).2 = o.isOpenVal) := by
  intro s
  refine ⟨rfl, ?_, ?_, ?_, ?_⟩
  · intro h
    simp [is_connected, live_probe, h]
  · intro c hc ho
    simp [is_connected, live_probe, hc, ho]
  · intro c o hc ho hr
    simp [is_connected, live_probe, hc, ho, hr]
  · intro c o hc ho hr
    simp [is_connected, live_probe, hc, ho, hr]

/-- Witness for C7: with no camera handle the probe reports `false` and
the state is untouched; a silently closed descriptor also reports
`false`. -/
theorem c7_is_connected_fail_closed_witness :
    (is_connected deadState).1 = deadState ∧
    (is_connected deadState).2 = false ∧
    (is_connected closedState).2 = false := by
  refine ⟨(c7_is_connected_fail_closed deadState).1,
    (c7_is_connected_fail_closed deadState).2.1 rfl, ?_⟩
  have h := (c7_is_connected_fail_closed closedState).2.2.2.2
    { output := some closedOutput } closedOutput rfl rfl rfl
  simpa [closedOutput] using h

/-- C4 (amended): with a live session and a succeeding power query,
each of the six guarded field queries is independent — any of them may
fail with a handled exception type (`IndexError`/`ValueError`/
`AttributeError`) and the snapshot still comes back `connected = true`
with every other field populated and the failed field replaced by its
sentinel (`0` / `"Unknown"`). (A failed power query, or an unhandled
exception type, instead aborts the whole poll: see the
counterexample.) -/
theorem c4_partial_field_isolation :
    ∀ (q : StatusQueries) (s : GuiState) (p : Int),
      (is_connected s).2 = true →
      q.power = Except.ok p →
      isOther q.pan = false → isOther q.tilt = false →
      isOther q.zoom = false → isOther q.video_format = false →
      isOther q.ae_mode = false → isOther q.white_balance = false →
      get_camera_status q s =
        CamStatus.snapshot
          (if p = 1 then "ON" else if p = 0 then "OFF" else "UNKNOWN")
          (fieldValue 0 q.pan) (fieldValue 0 q.tilt) (fieldValue 0 q.zoom)
          (fieldValue "Unknown" q.video_format)
          (fieldValue "Unknown" q.ae_mode)
          (fieldValue "Unknown" q.white_balance)
          s.pan_speed s.tilt_speed s.zoom_speed s.focus_speed := by
  intro q s p hl hp h1 h2 h3 h4 h5 h6
  rcases hcam : s.camera with _ | c
  · rw [is_connected] at hl
    rw [hcam] at hl
    simp [live_probe] at hl
  · simp [get_camera_status, hcam, hl, hp, h1, h2, h3, h4, h5, h6,
      bind, Except.bind, pure, Except.pure, Except.instMonad]

/-- C4 counterexample: the power query is a status field query too, but
it has no per-field handler: when it alone fails, the whole poll aborts
with `connected = false` and no populated fields, contradicting the
claim that any single failing field query leaves a connected snapshot. -/
theorem c4_counterexample :
    get_camera_status qPow wdState =
      CamStatus.notConnected "power query failed" ∧
    (get_camera_status qPow wdState).isConn = false := by
  constructor
  · simp [get_camera_status, qPow, wdState, is_connected, live_probe,
      liveCamera, truncateErr, bind, Except.bind, pure, Except.pure,
      Except.instMonad, isOther, otherMsg]
    decide
  · simp [get_camera_status, qPow, wdState, is_connected, live_probe,
      liveCamera, truncateErr, CamStatus.isConn, bind, Except.bind, pure,
      Except.pure, Except.instMonad, isOther, otherMsg]

/-- Witness for the amended C4: the video-format query fails (handled
type), all others succeed: the snapshot is connected with populated
fields and the `"Unknown"` sentinel for the video format. -/
theorem c4_partial_field_isolation_witness :
    get_camera_status qVF wdState =
      CamStatus.snapshot "ON" 100 (-50) 3 "Unknown" "Full Auto" "Auto"
        5 5 5 5 := by
  have h := c4_partial_field_isolation qVF wdState 1 rfl rfl rfl rfl rfl rfl
    rfl rfl
  simpa [qVF, wdState, fieldValue] using h

/-- C8: starting within capacity, any sequence of queue-touching
operations keeps the activity log at no more than 100 entries and the
incoming-message queue at no more than its configured maximum
(`max_messages`, 10 in `__init__`); each append evicts from the front
only (the result is a suffix of the appended list), and no eviction
happens below capacity. -/
theorem c8_bounded_queues :
    (∀ (ops : List QOp) (s : GuiState),
      s.log_messages.length ≤ 100 →
      s.incoming_messages.length ≤ s.max_messages →
      (qrun ops s).log_messages.length ≤ 100 ∧
      (qrun ops s).incoming_messages.length ≤ s.max_messages ∧
      (qrun ops s).max_messages = s.max_messages) ∧
    (∀ (l : List String) (m : String),
      (add_log l m).IsSuffix (l ++ [m]) ∧
      (l.length < 100 → add_log l m = l ++ [m])) ∧
    (∀ (q : List String) (M : Nat) (r : String),
      (push_incoming q M r).IsSuffix (q ++ [r]) ∧
      (q.length < M → push_incoming q M r = q ++ [r])) := by
  refine ⟨?_, ?_, ?_⟩
  · intro ops s h1 h2
    have h := qrun_qinv ops s ⟨h1, h2⟩
    exact ⟨h.1.1, h.2 ▸ h.1.2, h.2⟩
  · intro l m
    exact ⟨add_log_suffix l m, add_log_of_lt l m⟩
  · intro q M r
    exact ⟨push_incoming_suffix q M r, push_incoming_of_lt q M r⟩

/-- Witness for C8 at a concrete operation sequence from `wdState`. -/
theorem c8_bounded_queues_witness :
    ((qrun [QOp.logOp "a", QOp.incomingOp (Except.ok "msg"),
        QOp.tickOp 1 devAll, QOp.stopOp ConnectRes.success (Except.ok ()),
        QOp.logOp "b"] wdState).log_messages.length ≤ 100 ∧
     (qrun [QOp.logOp "a", QOp.incomingOp (Except.ok "msg"),
        QOp.tickOp 1 devAll, QOp.stopOp ConnectRes.success (Except.ok ()),
        QOp.logOp "b"] wdState).incoming_messages.length ≤
       wdState.max_messages) ∧
    add_log ["x"] "y" = ["x", "y"] := by
  have h := c8_bounded_queues.1 [QOp.logOp "a",
    QOp.incomingOp (Except.ok "msg"), QOp.tickOp 1 devAll,
    QOp.stopOp ConnectRes.success (Except.ok ()), QOp.logOp "b"] wdState
    (by simp [wdState]) (by simp [wdState])
  refine ⟨⟨h.1, h.2.1⟩, ?_⟩
  have h2 := (c8_bounded_queues.2.1 ["x"] "y").2 (by simp)
  simpa using h2

/-- C10: when the gate passes on a live session and the device `stop`
call succeeds, the `stop` command resets all three axis states to none
and empties the incoming-message queue in the one call, leaving the
camera handle and the four speed settings untouched and appending
exactly one entry to the activity log. -/
theorem c10_stop_frame :
    ∀ (cr : ConnectRes) (s : GuiState),
      (is_connected s).2 = true →
      (stop cr (Except.ok ()) s).1.current_movement = none ∧
      (stop cr (Except.ok ()) s).1.current_zoom = none ∧
      (stop cr (Except.ok ()) s).1.current_focus = none ∧
      (stop cr (Except.ok ()) s).1.incoming_messages = [] ∧
      (stop cr (Except.ok ()) s).1.pan_speed = s.pan_speed ∧
      (stop cr (Except.ok ()) s).1.tilt_speed = s.tilt_speed ∧
      (stop cr (Except.ok ()) s).1.zoom_speed = s.zoom_speed ∧
      (stop cr (Except.ok ()) s).1.focus_speed = s.focus_speed ∧
      (stop cr (Except.ok ()) s).1.camera = s.camera ∧
      (stop cr (Except.ok ()) s).1.log_messages =
        add_log s.log_messages "Stopped (cleared messages)" ∧
      (s.log_messages.length < 100 →
        (stop cr (Except.ok ()) s).1.log_messages =
          s.log_messages ++ ["Stopped (cleared messages)"]) ∧
      (stop cr (Except.ok ()) s).2 = [DevCall.stop] := by
  intro cr s h
  have hg := ensure_of_live cr s h
  simp only [stop, hg]
  exact ⟨rfl, rfl, rfl, rfl, rfl, rfl, rfl, rfl, rfl, rfl,
    fun hlt => add_log_of_lt _ _ hlt, rfl⟩

/-- Witness for C10 on `busyState`. -/
theorem c10_stop_frame_witness :
    (stop ConnectRes.success (Except.ok ()) busyState).1.current_movement =
      none ∧
    (stop ConnectRes.success (Except.ok ()) busyState).1.current_zoom = none ∧
    (stop ConnectRes.success (Except.ok ()) busyState).1.current_focus =
      none ∧
    (stop ConnectRes.success (Except.ok ()) busyState).1.incoming_messages =
      [] ∧
    (stop ConnectRes.success (Except.ok ()) busyState).1.pan_speed =
      busyState.pan_speed ∧
    (stop ConnectRes.success (Except.ok ())
        busyState).1.log_messages =
      busyState.log_messages ++ ["Stopped (cleared messages)"] := by
  have h := c10_stop_frame ConnectRes.success busyState rfl
  exact ⟨h.1, h.2.1, h.2.2.1, h.2.2.2.1, h.2.2.2.2.1,
    h.2.2.2.2.2.2.2.2.2.2.1 (by simp [busyState, wdState])⟩

end ViscaGUI
